import Mathlib

/-!
Verification of the measurement-to-metadata resolution and publication
pipeline of the weewx-home-assistant extension.

The development shallowly embeds the pipeline's code:

* `src/weewx_ha/utils.py` — the static metadata tables (`ENUM_MAPS`,
  `KEY_CONFIG`), the conversion helpers (`degrees_to_cardinal`,
  `UnitSystem`) and the key resolver `get_key_config`;
* `src/weewx_ha/config_publisher.py` — the measurement registry
  (`seen_measurements`), discovery of packet keys and of derived sensors,
  and `publish_discovery`;
* `src/weewx_ha/state_publisher.py` — `StatePublisher.process_packet`
  with its settle countdown, null skipping, conversion application and
  derived-sensor fan-out.

External collaborators (the weewx `to_std_system` unit conversion, the
`getStandardUnitType` classifier inside `get_unit_metadata`, the MQTT
transport and the `datetime` formatting library) are not part of this
repository; they enter the model as parameters or as opaque value
constructors, as noted at each definition.  Packets are modelled after
the point where `to_std_system` has run, i.e. values are already in the
canonical unit system; both publishers apply that external call to the
packet before any of the logic modelled here.
-/

/-- A metadata value as it appears in the Python dictionaries: strings,
integers (`payload_on`/`payload_off`), booleans (`enabled_by_default`),
lists of labels (`options`), the one nested `attributes` mapping of the
`usUnits` entry, the nested `device` description block, or `None`. -/
inductive MetaValue where
  | s (v : String)
  | i (v : Int)
  | b (v : Bool)
  | strList (v : List String)
  | attrs (v : List (String × String))
  | device (identifiers : List String) (name model manufacturer : String)
  | null
deriving DecidableEq, Repr

/-- A packet or published value: a number (weewx packet values are
numeric), a string (produced by the enum-style conversions), null, or an
ISO-8601 UTC rendering of an epoch timestamp.  `tsUtc` models
`datetime.fromtimestamp(x, tz=utc).isoformat()`; `tsLocal` models the
`stormStart`/`sunrise`/`sunset` lambdas, which first attach the station's
configured time zone and then convert to UTC before formatting.  Both
renderings are injective in the epoch, so the constructors carry the
epoch instead of the formatted text. -/
inductive Value where
  | num (q : ℚ)
  | str (v : String)
  | null
  | tsUtc (epoch : ℚ)
  | tsLocal (epoch : ℚ)
deriving DecidableEq, Repr

/-- The closed set of `convert_lambda` functions appearing in
`KEY_CONFIG` (utils.py): the Beaufort label lookup, compass degrees to
cardinal label, the two epoch-to-UTC-ISO conversions, and the
unit-system code-to-name conversion of `usUnits`. -/
inductive Conv where
  | beaufortLabel
  | toCardinal
  | epochToUtc
  | localEpochToUtc
  | unitSystemName
deriving DecidableEq, Repr

/-- One `KEY_CONFIG` entry / one `seen_measurements` entry: the optional
`integration` kind, the optional `source` key of a derived sensor, the
optional `convert_lambda`, and the `metadata` dictionary (an association
list preserving Python's dict insertion order). -/
structure SensorConfig where
  integration : Option String := none
  source : Option String := none
  convLambda : Option Conv := none
  metadata : List (String × MetaValue) := []
deriving DecidableEq, Repr

/-- The static sensor table and the registry share the same shape:
an insertion-ordered mapping from measurement key to config. -/
abbrev Table := List (String × SensorConfig)

abbrev Registry := List (String × SensorConfig)

/-- The key list of a table or registry. -/
def regKeys (r : Registry) : List String := r.map Prod.fst

/-- Python `dict.__setitem__`: overwrite in place (keeping the key's
position) when the key exists, append otherwise. -/
def dictSet (md : List (String × MetaValue)) (k : String) (v : MetaValue) :
    List (String × MetaValue) :=
  if md.any (fun p => p.1 = k) then
    md.map (fun p => if p.1 = k then (k, v) else p)
  else md ++ [(k, v)]

/-- Python `a | b` on dicts: start from `a`, then set each pair of `b`
in order; `b` wins on conflicts, key order is `a`'s keys then `b`'s new
keys. -/
def dictMerge (a b : List (String × MetaValue)) : List (String × MetaValue) :=
  b.foldl (fun acc p => dictSet acc p.1 p.2) a

/-- `ENUM_MAPS["cardinal_directions"]` (utils.py): the 16-point compass,
indexed 0..15. -/
def cardinalDirections : List String :=
  ["N", "NNE", "NE", "ENE", "E", "ESE", "SE", "SSE",
   "S", "SSW", "SW", "WSW", "W", "WNW", "NW", "NNW"]

/-- `ENUM_MAPS["beaufort_scale"]` (utils.py), indexed 0..12. -/
def beaufortScale : List String :=
  ["0 - Calm", "1 - Light air", "2 - Light breeze", "3 - Gentle breeze",
   "4 - Moderate breeze", "5 - Fresh breeze", "6 - Strong breeze",
   "7 - Near gale", "8 - Gale", "9 - Strong gale", "10 - Storm",
   "11 - Violent storm", "12 - Hurricane"]

/-- Python `int()` applied to a rational: truncation toward zero. -/
def ratTrunc (q : ℚ) : Int := q.num.tdiv q.den

/-- `degrees_to_cardinal` (utils.py):
`index = int((degrees + 11.25) / 22.5) % 16` followed by the
`cardinal_directions` lookup.  Python `%` on a positive modulus agrees
with `Int.emod`; the dict lookup cannot miss because the index lies in
0..15, so the `getD` default is unreachable. -/
def degreesToCardinal (d : ℚ) : String :=
  cardinalDirections.getD ((ratTrunc ((d + 11.25) / 22.5)) % 16).toNat ""

/-- The `beaufort` entry's lambda (utils.py):
`ENUM_MAPS["beaufort_scale"].get(int(x), f"{int(x)} - Unknown")`. -/
def beaufortOfInt (i : Int) : String :=
  if 0 ≤ i ∧ i < 13 then beaufortScale.getD i.toNat ""
  else toString i ++ " - Unknown"

/-- `str(UnitSystem.from_int(x))` of the `usUnits` lambda (utils.py).
The weewx codes are US = 1, METRIC = 16, METRICWX = 17; `from_int`
raises `ValueError` on any other value, which is outside the modelled
domain and mapped to `none`. -/
def unitSystemOfRat (q : ℚ) : Option String :=
  if q = 16 then some "METRIC"
  else if q = 17 then some "METRICWX"
  else if q = 1 then some "US"
  else none

/-- Application of a named conversion to a raw packet value.  All
`convert_lambda`s in `KEY_CONFIG` are applied to numeric packet values;
the lambdas would raise on non-numeric input, which is outside the
modelled domain (the value is returned unchanged there). -/
def applyConv (cv : Conv) (v : Value) : Value :=
  match v with
  | Value.num q =>
    match cv with
    | Conv.beaufortLabel => Value.str (beaufortOfInt (ratTrunc q))
    | Conv.toCardinal => Value.str (degreesToCardinal q)
    | Conv.epochToUtc => Value.tsUtc q
    | Conv.localEpochToUtc => Value.tsLocal q
    | Conv.unitSystemName =>
      match unitSystemOfRat q with
      | some u => Value.str u
      | none => Value.null
  | other => other

/-- `KEY_CONFIG` (utils.py): the static sensor-definition table, entries
in source order (Python dict literals preserve insertion order).
`options` lists are `list(ENUM_MAPS[...].values())` evaluated at module
load.  First chunk of the table; the full table is assembled below. -/
def keyConfigA : Table := [
  ("ET", { metadata := [
    ("enabled_by_default", .b false),
    ("icon", .s "mdi:waves-arrow-up"),
    ("name", .s "Evapotranspiration")] }),
  ("THSW", { metadata := [
    ("icon", .s "mdi:thermometer-lines"),
    ("name", .s "Temperature Humidity Sun Wind Index"),
    ("state_class", .s "measurement")] }),
  ("UV", { metadata := [
    ("icon", .s "mdi:sun-wireless"),
    ("name", .s "UV Index"),
    ("state_class", .s "measurement")] }),
  ("altimeter", { metadata := [
    ("device_class", .s "atmospheric_pressure"),
    ("icon", .s "mdi:altimeter"),
    ("name", .s "Pressure Altimeter"),
    ("state_class", .s "measurement")] }),
  ("altimeterRate", { metadata := [
    ("icon", .s "mdi:altimeter"),
    ("name", .s "Altimeter Rate"),
    ("state_class", .s "measurement")] }),
  ("altitude", { metadata := [
    ("device_class", .s "distance"),
    ("icon", .s "mdi:altimeter"),
    ("name", .s "Altitude"),
    ("state_class", .s "measurement")] }),
  ("appTemp", { metadata := [
    ("device_class", .s "temperature"),
    ("icon", .s "mdi:thermometer-lines"),
    ("name", .s "Apparent Temperature"),
    ("state_class", .s "measurement")] }),
  ("barometer", { metadata := [
    ("device_class", .s "atmospheric_pressure"),
    ("icon", .s "mdi:gauge"),
    ("name", .s "Barometric Pressure"),
    ("state_class", .s "measurement")] }),
  ("barometerRate", { metadata := [
    ("icon", .s "mdi:gauge"),
    ("name", .s "Barometric Pressure Rate"),
    ("state_class", .s "measurement")] }),
  ("batteryStatusChannel", {
    integration := some "binary_sensor",
    metadata := [
    ("device_class", .s "battery"),
    ("enabled_by_default", .b false),
    ("icon", .s "mdi:battery"),
    ("name", .s "Battery Status Channel"),
    ("payload_off", .i 0),
    ("payload_on", .i 1)] }),
  ("batteryStatusISS", {
    integration := some "binary_sensor",
    metadata := [
    ("device_class", .s "battery"),
    ("icon", .s "mdi:battery"),
    ("name", .s "ISS Battery Status"),
    ("payload_off", .i 0),
    ("payload_on", .i 1)] }),
  ("beaufort", {
    convLambda := some .beaufortLabel,
    metadata := [
    ("device_class", .s "enum"),
    ("icon", .s "mdi:windsock"),
    ("name", .s "Beaufort Scale"),
    ("options", .strList beaufortScale),
    ("unit_of_measurement", .null)] }),
  ("cloudbase", { metadata := [
    ("device_class", .s "distance"),
    ("icon", .s "mdi:cloud-arrow-down"),
    ("name", .s "Cloud Base Height"),
    ("state_class", .s "measurement")] }),
  ("cloudcover", { metadata := [
    ("icon", .s "mdi:weather-cloudy-alert"),
    ("name", .s "Cloud Cover"),
    ("state_class", .s "measurement")] }),
  ("co", { metadata := [
    ("device_class", .s "carbon_monoxide"),
    ("icon", .s "mdi:molecule-co"),
    ("name", .s "Carbon Monoxide"),
    ("state_class", .s "measurement")] }),
  ("co2", { metadata := [
    ("device_class", .s "carbon_dioxide"),
    ("icon", .s "mdi:molecule-co2"),
    ("name", .s "Carbon Dioxide"),
    ("state_class", .s "measurement")] }),
  ("consBatteryVoltage", { metadata := [
    ("device_class", .s "voltage"),
    ("icon", .s "mdi:sine-wave"),
    ("name", .s "Console Battery Voltage"),
    ("state_class", .s "measurement")] }),
  ("cooldeg", { metadata := [
    ("icon", .s "mdi:snowflake-thermometer"),
    ("name", .s "Cooling Degree Days")] }),
  ("dateTime", {
    convLambda := some .epochToUtc,
    metadata := [
    ("enabled_by_default", .b false),
    ("device_class", .s "timestamp"),
    ("icon", .s "mdi:clock"),
    ("name", .s "Date Time")] }),
  ("dayET", { metadata := [
    ("enabled_by_default", .b false),
    ("icon", .s "mdi:waves-arrow-up"),
    ("name", .s "Day Evapotranspiration"),
    ("state_class", .s "total_increasing")] }),
  ("dayRain", { metadata := [
    ("device_class", .s "precipitation"),
    ("icon", .s "mdi:cup-water"),
    ("name", .s "Day Rainfall"),
    ("state_class", .s "total_increasing")] }),
  ("daySunshineDur", { metadata := [
    ("device_class", .s "duration"),
    ("icon", .s "mdi:sun-clock"),
    ("name", .s "Day Sunshine Duration"),
    ("state_class", .s "total_increasing")] }),
  ("dewpoint", { metadata := [
    ("device_class", .s "temperature"),
    ("icon", .s "mdi:water-thermometer"),
    ("name", .s "Dew Point Temperature"),
    ("state_class", .s "measurement")] }),
  ("extraAlarm", {
    integration := some "binary_sensor",
    metadata := [
    ("enabled_by_default", .b false),
    ("icon", .s "mdi:alarm-light"),
    ("name", .s "Extra Alarm"),
    ("payload_off", .i 0),
    ("payload_on", .i 1)] }),
  ("extraHumid", { metadata := [
    ("device_class", .s "humidity"),
    ("icon", .s "mdi:water-percent"),
    ("name", .s "Extra Humidity"),
    ("state_class", .s "measurement")] }),
  ("extraTemp", { metadata := [
    ("device_class", .s "temperature"),
    ("icon", .s "mdi:thermometer"),
    ("name", .s "Extra Temperature"),
    ("state_class", .s "measurement")] }),
  ("forecastIcon", { metadata := [
    ("icon", .s "mdi:image-frame"),
    ("name", .s "Forecast Icon")] }),
  ("forecastRule", { metadata := [
    ("icon", .s "mdi:format-list-numbered"),
    ("name", .s "Forecast Rule")] }),
  ("growdeg", { metadata := [
    ("icon", .s "mdi:sprout"),
    ("name", .s "Growing Degree Days")] }),
  ("gustdir", { metadata := [
    ("icon", .s "mdi:compass-rose"),
    ("name", .s "Wind Gust Direction"),
    ("state_class", .s "measurement_angle")] }),
  ("gustdirCardinal", {
    source := some "gustdir",
    convLambda := some .toCardinal,
    metadata := [
    ("device_class", .s "enum"),
    ("icon", .s "mdi:compass-rose"),
    ("name", .s "Wind Gust Direction Cardinal"),
    ("options", .strList cardinalDirections),
    ("unit_of_measurement", .null)] }),
  ("hail", { metadata := [
    ("device_class", .s "precipitation"),
    ("icon", .s "mdi:weather-hail"),
    ("name", .s "Hailfall")] }),
  ("hailRate", { metadata := [
    ("icon", .s "mdi:weather-hail"),
    ("name", .s "Hail Rate"),
    ("state_class", .s "measurement")] }),
  ("heatdeg", { metadata := [
    ("icon", .s "mdi:sun-thermometer"),
    ("name", .s "Heating Degree Days")] }),
  ("heatindex", { metadata := [
    ("device_class", .s "temperature"),
    ("icon", .s "mdi:sun-thermometer"),
    ("name", .s "Heat Index"),
    ("state_class", .s "measurement")] }),
  ("heatingTemp", { metadata := [
    ("device_class", .s "temperature"),
    ("icon", .s "mdi:sun-thermometer"),
    ("name", .s "Heating Temperature"),
    ("state_class", .s "measurement")] }),
  ("heatingVoltage", { metadata := [
    ("device_class", .s "voltage"),
    ("icon", .s "mdi:sine-wave"),
    ("name", .s "Heating Voltage"),
    ("state_class", .s "measurement")] }),
  ("highOutTemp", { metadata := [
    ("device_class", .s "temperature"),
    ("icon", .s "mdi:thermometer-high"),
    ("name", .s "High Outdoor Temperature"),
    ("state_class", .s "measurement")] }),
  ("hourRain", { metadata := [
    ("device_class", .s "precipitation"),
    ("icon", .s "mdi:cup-water"),
    ("name", .s "Hourly Rainfall")] }),
  ("humidex", { metadata := [
    ("icon", .s "mdi:water-percent"),
    ("name", .s "Humidex"),
    ("state_class", .s "measurement")] })]

/-- Second chunk of `KEY_CONFIG` (utils.py), continuing in source
order. -/
def keyConfigB : Table := [
  ("illuminance", { metadata := [
    ("device_class", .s "illuminance"),
    ("icon", .s "mdi:sun-wireless"),
    ("name", .s "Illuminance"),
    ("state_class", .s "measurement")] }),
  ("insideAlarm", {
    integration := some "binary_sensor",
    metadata := [
    ("enabled_by_default", .b false),
    ("icon", .s "mdi:alarm-light"),
    ("name", .s "Inside Alarm"),
    ("payload_off", .i 0),
    ("payload_on", .i 1)] }),
  ("inDewpoint", { metadata := [
    ("device_class", .s "temperature"),
    ("icon", .s "mdi:water-thermometer"),
    ("name", .s "Indoor Dew Point"),
    ("state_class", .s "measurement")] }),
  ("inHumidity", { metadata := [
    ("device_class", .s "humidity"),
    ("icon", .s "mdi:water-percent"),
    ("name", .s "Indoor Humidity"),
    ("state_class", .s "measurement")] }),
  ("inTemp", { metadata := [
    ("device_class", .s "temperature"),
    ("icon", .s "mdi:thermometer"),
    ("name", .s "Indoor Temperature"),
    ("state_class", .s "measurement")] }),
  ("interval", { metadata := [
    ("icon", .s "mdi:repeat"),
    ("name", .s "Interval")] }),
  ("leafTemp", { metadata := [
    ("device_class", .s "temperature"),
    ("icon", .s "mdi:leaf-maple"),
    ("name", .s "Leaf Temperature"),
    ("state_class", .s "measurement")] }),
  ("leafWet", { metadata := [
    ("device_class", .s "moisture"),
    ("icon", .s "mdi:leaf-maple"),
    ("name", .s "Leaf Wetness")] }),
  ("lightning_distance", { metadata := [
    ("device_class", .s "distance"),
    ("icon", .s "mdi:flash"),
    ("name", .s "Lightning Distance"),
    ("state_class", .s "measurement")] }),
  ("lightning_disturber_count", { metadata := [
    ("icon", .s "mdi:flash"),
    ("name", .s "Lightning Disturber Count")] }),
  ("lightning_noise_count", { metadata := [
    ("icon", .s "mdi:flash"),
    ("name", .s "Lightning Noise Count")] }),
  ("lightning_strike_count", { metadata := [
    ("icon", .s "mdi:flash"),
    ("name", .s "Lightning Strike Count")] }),
  ("lowOutTemp", { metadata := [
    ("device_class", .s "temperature"),
    ("icon", .s "mdi:thermometer-low"),
    ("name", .s "Low Outdoor Temperature"),
    ("state_class", .s "measurement")] }),
  ("maxSolarRad", { metadata := [
    ("enabled_by_default", .b false),
    ("device_class", .s "irradiance"),
    ("icon", .s "mdi:sun-wireless"),
    ("name", .s "Maximum Solar Radiation"),
    ("state_class", .s "measurement")] }),
  ("monthET", { metadata := [
    ("enabled_by_default", .b false),
    ("icon", .s "mdi:waves-arrow-up"),
    ("name", .s "Month Evapotranspiration"),
    ("state_class", .s "total_increasing")] }),
  ("monthRain", { metadata := [
    ("device_class", .s "precipitation"),
    ("icon", .s "mdi:cup-water"),
    ("name", .s "Monthly Rainfall"),
    ("state_class", .s "total_increasing")] }),
  ("nh3", { metadata := [
    ("icon", .s "mdi:chemical-weapon"),
    ("name", .s "Ammonia Concentration"),
    ("state_class", .s "measurement")] }),
  ("no2", { metadata := [
    ("device_class", .s "nitrogen_dioxide"),
    ("icon", .s "mdi:chemical-weapon"),
    ("name", .s "Nitrogen Dioxide Concentration"),
    ("state_class", .s "measurement")] }),
  ("noise", { metadata := [
    ("device_class", .s "sound_pressure"),
    ("icon", .s "mdi:volume-vibrate"),
    ("name", .s "Noise Level"),
    ("state_class", .s "measurement")] }),
  ("o3", { metadata := [
    ("device_class", .s "ozone"),
    ("icon", .s "mdi:chemical-weapon"),
    ("name", .s "Ozone Concentration"),
    ("state_class", .s "measurement")] }),
  ("outHumidity", { metadata := [
    ("device_class", .s "humidity"),
    ("icon", .s "mdi:water-percent"),
    ("name", .s "Outdoor Humidity"),
    ("state_class", .s "measurement")] }),
  ("outsideAlarm", {
    integration := some "binary_sensor",
    metadata := [
    ("enabled_by_default", .b false),
    ("icon", .s "mdi:alarm-light"),
    ("name", .s "Outside Alarm"),
    ("payload_off", .i 0),
    ("payload_on", .i 1)] }),
  ("outTemp", { metadata := [
    ("device_class", .s "temperature"),
    ("icon", .s "mdi:thermometer"),
    ("name", .s "Outdoor Temperature"),
    ("state_class", .s "measurement")] }),
  ("outWetbulb", { metadata := [
    ("device_class", .s "temperature"),
    ("icon", .s "mdi:thermometer-water"),
    ("name", .s "Outdoor Wetbulb Temperature"),
    ("state_class", .s "measurement")] }),
  ("pb", { metadata := [
    ("icon", .s "mdi:chemical-weapon"),
    ("name", .s "Lead Concentration"),
    ("state_class", .s "measurement")] }),
  ("pm10_0", { metadata := [
    ("device_class", .s "pm10"),
    ("icon", .s "mdi:air-filter"),
    ("name", .s "PM10 Concentration"),
    ("state_class", .s "measurement")] }),
  ("pm1_0", { metadata := [
    ("device_class", .s "pm1"),
    ("icon", .s "mdi:air-filter"),
    ("name", .s "PM1.0 Concentration"),
    ("state_class", .s "measurement")] }),
  ("pm2_5", { metadata := [
    ("device_class", .s "pm25"),
    ("icon", .s "mdi:air-filter"),
    ("name", .s "PM2.5 Concentration"),
    ("state_class", .s "measurement")] }),
  ("pop", { metadata := [
    ("icon", .s "mdi:cloud-percent"),
    ("name", .s "Probability of Precipitation"),
    ("state_class", .s "measurement")] }),
  ("pressure", { metadata := [
    ("device_class", .s "atmospheric_pressure"),
    ("icon", .s "mdi:gauge"),
    ("name", .s "Atmospheric Pressure"),
    ("state_class", .s "measurement")] }),
  ("pressureRate", { metadata := [
    ("icon", .s "mdi:gauge"),
    ("name", .s "Pressure Rate"),
    ("state_class", .s "measurement")] }),
  ("radiation", { metadata := [
    ("device_class", .s "irradiance"),
    ("icon", .s "mdi:radioactive"),
    ("name", .s "Solar Radiation"),
    ("state_class", .s "measurement")] }),
  ("rain", { metadata := [
    ("device_class", .s "precipitation"),
    ("icon", .s "mdi:cup-water"),
    ("name", .s "Rainfall")] }),
  ("rain24", { metadata := [
    ("device_class", .s "precipitation"),
    ("icon", .s "mdi:cup-water"),
    ("name", .s "24-Hour Rainfall"),
    ("state_class", .s "measurement")] }),
  ("rainDur", { metadata := [
    ("device_class", .s "duration"),
    ("icon", .s "mdi:timer"),
    ("name", .s "Rain Duration")] }),
  ("rainRate", { metadata := [
    ("device_class", .s "precipitation_intensity"),
    ("icon", .s "mdi:weather-pouring"),
    ("name", .s "Rain Rate"),
    ("state_class", .s "measurement")] }),
  ("referenceVoltage", { metadata := [
    ("device_class", .s "voltage"),
    ("icon", .s "mdi:sine-wave"),
    ("name", .s "Reference Voltage"),
    ("state_class", .s "measurement")] }),
  ("rms", { metadata := [
    ("device_class", .s "wind_speed"),
    ("icon", .s "mdi:windsock"),
    ("name", .s "Root Mean Square Wind Speed"),
    ("state_class", .s "measurement")] }),
  ("rxCheckPercent", { metadata := [
    ("icon", .s "mdi:radio-tower"),
    ("name", .s "Receive Check Percentage"),
    ("state_class", .s "measurement")] }),
  ("soilLeafAlarm", {
    integration := some "binary_sensor",
    metadata := [
    ("enabled_by_default", .b false),
    ("icon", .s "mdi:alarm-light"),
    ("name", .s "Soil Leaf Alarm"),
    ("payload_off", .i 0),
    ("payload_on", .i 1)] }),
  ("snow", { metadata := [
    ("device_class", .s "precipitation"),
    ("icon", .s "mdi:weather-snowy-heavy"),
    ("name", .s "Snowfall")] }),
  ("snowDepth", { metadata := [
    ("device_class", .s "distance"),
    ("icon", .s "mdi:snowflake"),
    ("name", .s "Snow Depth"),
    ("state_class", .s "measurement")] }),
  ("snowMoisture", { metadata := [
    ("device_class", .s "moisture"),
    ("icon", .s "mdi:snowflake-melt"),
    ("name", .s "Snow Moisture Content"),
    ("state_class", .s "measurement")] }),
  ("snowRate", { metadata := [
    ("device_class", .s "precipitation_intensity"),
    ("icon", .s "mdi:snowflake"),
    ("name", .s "Snow Rate"),
    ("state_class", .s "measurement")] }),
  ("so2", { metadata := [
    ("device_class", .s "sulphur_dioxide"),
    ("icon", .s "mdi:chemical-weapon"),
    ("name", .s "Sulfur Dioxide Concentration"),
    ("state_class", .s "measurement")] }),
  ("soilMoist", { metadata := [
    ("device_class", .s "moisture"),
    ("icon", .s "mdi:water-percent"),
    ("name", .s "Soil Moisture"),
    ("state_class", .s "measurement")] }),
  ("soilTemp", { metadata := [
    ("device_class", .s "temperature"),
    ("icon", .s "mdi:thermometer"),
    ("name", .s "Soil Temperature"),
    ("state_class", .s "measurement")] }),
  ("stormRain", { metadata := [
    ("device_class", .s "precipitation"),
    ("icon", .s "mdi:cup-water"),
    ("name", .s "Storm Rainfall"),
    ("state_class", .s "total_increasing")] })]

/-- Third chunk of `KEY_CONFIG` (utils.py), continuing in source order.
The `usUnits` `attributes` string is
`f"{{{{ {[str(i) for i in UnitSystem]} }}}}"` evaluated at module load,
i.e. literal double braces around the Python rendering of the list of
unit-system names in enum definition order. -/
def keyConfigC : Table := [
  ("stormStart", {
    convLambda := some .localEpochToUtc,
    metadata := [
    ("device_class", .s "timestamp"),
    ("icon", .s "mdi:clock-start"),
    ("name", .s "Storm Start Time")] }),
  ("sunrise", {
    convLambda := some .localEpochToUtc,
    metadata := [
    ("device_class", .s "timestamp"),
    ("icon", .s "mdi:weather-sunset-up"),
    ("name", .s "Sunrise")] }),
  ("sunset", {
    convLambda := some .localEpochToUtc,
    metadata := [
    ("device_class", .s "timestamp"),
    ("icon", .s "mdi:weather-sunset-down"),
    ("name", .s "Sunset")] }),
  ("sunshineDur", { metadata := [
    ("device_class", .s "duration"),
    ("icon", .s "mdi:sun-clock"),
    ("name", .s "Sunshine Duration")] }),
  ("supplyVoltage", { metadata := [
    ("device_class", .s "voltage"),
    ("icon", .s "mdi:sine-wave"),
    ("name", .s "Supply Voltage"),
    ("state_class", .s "measurement")] }),
  ("totalRain", { metadata := [
    ("device_class", .s "precipitation"),
    ("icon", .s "mdi:cup-water"),
    ("name", .s "Total Rainfall"),
    ("state_class", .s "total_increasing")] }),
  ("usUnits", {
    convLambda := some .unitSystemName,
    metadata := [
    ("attributes", .attrs [("options",
      "\x7b\x7b [\x27METRIC\x27, \x27METRICWX\x27, \x27US\x27] \x7d\x7d")]),
    ("device_class", .s "enum"),
    ("icon", .s "mdi:scale-balance"),
    ("name", .s "Units")] }),
  ("vecavg", { metadata := [
    ("device_class", .s "wind_speed"),
    ("icon", .s "mdi:windsock"),
    ("name", .s "Vector Average Wind Speed"),
    ("state_class", .s "measurement")] }),
  ("vecdir", { metadata := [
    ("icon", .s "mdi:compass-rose"),
    ("name", .s "Vector Direction"),
    ("state_class", .s "measurement_angle")] }),
  ("vecdirCardinal", {
    source := some "vecdir",
    convLambda := some .toCardinal,
    metadata := [
    ("device_class", .s "enum"),
    ("icon", .s "mdi:compass-rose"),
    ("name", .s "Vector Direction Cardinal"),
    ("options", .strList cardinalDirections),
    ("unit_of_measurement", .null)] }),
  ("wind", { metadata := [
    ("device_class", .s "wind_speed"),
    ("icon", .s "mdi:windsock"),
    ("name", .s "Wind Speed"),
    ("state_class", .s "measurement")] }),
  ("windDir", { metadata := [
    ("icon", .s "mdi:compass-rose"),
    ("name", .s "Wind Direction"),
    ("state_class", .s "measurement_angle")] }),
  ("windDirCardinal", {
    source := some "windDir",
    convLambda := some .toCardinal,
    metadata := [
    ("device_class", .s "enum"),
    ("icon", .s "mdi:compass-rose"),
    ("name", .s "Wind Direction Cardinal"),
    ("options", .strList cardinalDirections),
    ("unit_of_measurement", .null)] }),
  ("windDir10", { metadata := [
    ("icon", .s "mdi:compass-rose"),
    ("name", .s "10-Minute Wind Direction"),
    ("state_class", .s "measurement_angle")] }),
  ("windDir10Cardinal", {
    source := some "windDir10",
    convLambda := some .toCardinal,
    metadata := [
    ("device_class", .s "enum"),
    ("icon", .s "mdi:compass-rose"),
    ("name", .s "10-Minute Wind Direction Cardinal"),
    ("options", .strList cardinalDirections),
    ("unit_of_measurement", .null)] }),
  ("windGust", { metadata := [
    ("device_class", .s "wind_speed"),
    ("icon", .s "mdi:windsock"),
    ("name", .s "Wind Gust Speed"),
    ("state_class", .s "measurement")] }),
  ("windGustDir", { metadata := [
    ("icon", .s "mdi:compass-rose"),
    ("name", .s "Wind Gust Direction"),
    ("state_class", .s "measurement_angle")] }),
  ("windGustDirCardinal", {
    source := some "windGustDir",
    convLambda := some .toCardinal,
    metadata := [
    ("device_class", .s "enum"),
    ("icon", .s "mdi:compass-rose"),
    ("name", .s "Wind Gust Direction Cardinal"),
    ("options", .strList cardinalDirections),
    ("unit_of_measurement", .null)] }),
  ("windSpeed", { metadata := [
    ("device_class", .s "wind_speed"),
    ("icon", .s "mdi:windsock"),
    ("name", .s "Wind Speed"),
    ("state_class", .s "measurement")] }),
  ("windSpeed10", { metadata := [
    ("device_class", .s "wind_speed"),
    ("icon", .s "mdi:windsock"),
    ("name", .s "10-Minute Wind Speed"),
    ("state_class", .s "measurement")] }),
  ("windchill", { metadata := [
    ("device_class", .s "temperature"),
    ("icon", .s "mdi:thermometer"),
    ("name", .s "Wind Chill Temperature"),
    ("state_class", .s "measurement")] }),
  ("windgustvec", { metadata := [
    ("device_class", .s "wind_speed"),
    ("icon", .s "mdi:windsock"),
    ("name", .s "Wind Gust Vector Speed")] }),
  ("windburn", { metadata := [
    ("device_class", .s "distance"),
    ("icon", .s "mdi:windsock"),
    ("name", .s "Wind Run Distance")] }),
  ("windvec", { metadata := [
    ("device_class", .s "wind_speed"),
    ("icon", .s "mdi:windsock"),
    ("name", .s "Wind Vector Speed")] }),
  ("yearET", { metadata := [
    ("enabled_by_default", .b false),
    ("icon", .s "mdi:waves-arrow-up"),
    ("name", .s "Year Evapotranspiration"),
    ("state_class", .s "total_increasing")] }),
  ("yearRain", { metadata := [
    ("device_class", .s "precipitation"),
    ("icon", .s "mdi:cup-water"),
    ("name", .s "Yearly Rainfall"),
    ("state_class", .s "total_increasing")] })]

/-- The full `KEY_CONFIG` table (utils.py), in source order. -/
def KEY_CONFIG : Table := keyConfigA ++ keyConfigB ++ keyConfigC

/-- Does `p` start the list `l`? (helper for substring search). -/
def listStarts : List Char → List Char → Bool
  | [], _ => true
  | _ :: _, [] => false
  | a :: as, b :: bs => a = b && listStarts as bs

/-- Python `needle in hay` on strings: contiguous substring search. -/
def hasSub (needle : List Char) : List Char → Bool
  | [] => needle.isEmpty
  | c :: rest => listStarts needle (c :: rest) || hasSub needle rest

/-- Python `str.lower()` (ASCII keys). -/
def strLower (s : String) : String := String.mk (s.toList.map Char.toLower)

/-- `re.sub(r"(\d+)", r" \1", key)`: insert a space before every maximal
digit run.  `prevDigit` records whether the previous character was a
digit (initially false). -/
def spaceDigitsAux (prevDigit : Bool) : List Char → List Char
  | [] => []
  | c :: rest =>
    if c.isDigit && !prevDigit then ' ' :: c :: spaceDigitsAux true rest
    else c :: spaceDigitsAux c.isDigit rest

/-- `re.sub(r"(?<!^)(?=[A-Z])", " ", s)`: insert a space before every
uppercase letter except at position 0. -/
def camelSplit : List Char → List Char
  | [] => []
  | c :: rest =>
    c :: (rest.map (fun ch => if ch.isUpper then [' ', ch] else [ch])).flatten

/-- Python `str.title()` for ASCII text: a letter is uppercased when the
preceding character is not a letter, lowercased otherwise. -/
def pyTitleAux (prevAlpha : Bool) : List Char → List Char
  | [] => []
  | c :: rest =>
    if c.isAlpha then
      (if prevAlpha then c.toLower else c.toUpper) :: pyTitleAux true rest
    else c :: pyTitleAux false rest

/-- The friendly-name synthesis of `get_key_config` (utils.py): space
before digit runs, camel-case split, title case, then the guarded
`replace(..., 1)` rewrites of the leading `In `/`Out `/`Tx `/`Rx `
tokens (each replaces the first occurrence, which the `startswith` guard
pins to position 0). -/
def guessName (key : String) : String :=
  let t := String.mk (pyTitleAux false (camelSplit (spaceDigitsAux false key.toList)))
  if t.startsWith "In " then "Indoor " ++ t.drop 3
  else if t.startsWith "Out " then "Outdoor " ++ t.drop 4
  else if t.startsWith "Tx " then "Transmit " ++ t.drop 3
  else if t.startsWith "Rx " then "Receive " ++ t.drop 3
  else t

/-- `re.match(r"(.*?)(\d+)$", key)`: the lazy group makes the digit
group the maximal trailing digit run (nonempty), the base everything
before it.  `none` when the key does not end in a digit. -/
def splitDigits (key : String) : Option (String × String) :=
  let rs := key.toList.reverse
  let ds := rs.takeWhile Char.isDigit
  if ds.isEmpty then none
  else some (String.mk (rs.dropWhile Char.isDigit).reverse, String.mk ds.reverse)

/-- The string content of a looked-up metadata value.  In
`get_key_config` this is only applied to the `name` field of a table
entry, which is always a string (`config["metadata"]["name"]` would
raise a `KeyError` in Python otherwise); the `""` fallback is
unreachable on `KEY_CONFIG`. -/
def mvStr : Option MetaValue → String
  | some (MetaValue.s v) => v
  | _ => ""

/-- `KEY_CONFIG[k]` for the guess templates of `get_key_config`: the
keys used (`extraAlarm`, `outHumidity`, `pressure`, `outTemp`) are all
present in the table, so the default is unreachable (Python would raise
a `KeyError`). -/
def tGet (t : Table) (k : String) : SensorConfig := (t.lookup k).getD {}

/-- The guess branch of `get_key_config` (utils.py): synthesize a
friendly name, pick a template by substring match on its lower-cased
form (`alarm`/`humidity`/`pressure`/`temperature`, first match wins,
else the empty `{"metadata": {}}` record), then set the template's
`name`.  `deepcopy` makes the result alias-free, so the pure record
suffices. -/
def guessCfg (t : Table) (key : String) : SensorConfig :=
  let nm := guessName key
  let low := (strLower nm).toList
  let g : SensorConfig :=
    if hasSub "alarm".toList low then tGet t "extraAlarm"
    else if hasSub "humidity".toList low then tGet t "outHumidity"
    else if hasSub "pressure".toList low then tGet t "pressure"
    else if hasSub "temperature".toList low then tGet t "outTemp"
    else {}
  { g with metadata := dictSet g.metadata "name" (MetaValue.s nm) }

/-- `get_key_config` (utils.py).  Branch 1: exact table hit (`if
config:` — every table entry is a nonempty dict, so truthiness is
`isSome`).  Branch 2: strip the trailing digit run; on a base-table hit,
deep-copy the entry and append ` <digits>` to its name.  Branch 3: the
guess.  The table is passed explicitly so that the registry code below
can thread the (potentially mutated) `KEY_CONFIG` through. -/
def getKeyConfig (t : Table) (key : String) : SensorConfig :=
  match t.lookup key with
  | some c => c
  | none =>
    match splitDigits key with
    | some (base, ds) =>
      match t.lookup base with
      | some c =>
        { c with metadata := (
            dictSet c.metadata "name"
              (MetaValue.s (mvStr (c.metadata.lookup "name") ++ " " ++ ds))) }
      | none => guessCfg t key
    | none => guessCfg t key

/-- The mutable state relevant to discovery
(`ConfigPublisher.seen_measurements` plus the module-level `KEY_CONFIG`
it reads).  `KEY_CONFIG` is threaded because
`_discover_derived_sensors` takes a *shallow* copy of a table entry:
every `KEY_CONFIG` entry carries a `metadata` dict, so the copy's
`metadata` aliases the table's, and the
`setdefault("metadata", {})["unit_of_measurement"] = None` write in the
no-unit branch would land in `KEY_CONFIG` as well — the model makes that
potential mutation explicit instead of erasing it. -/
structure PubState where
  table : Table
  seen : Registry
deriving DecidableEq, Repr

/-- One iteration of the `for sensor_name, sensor_config in
KEY_CONFIG.items()` loop of `_discover_derived_sensors`
(config_publisher.py).  When the entry derives from `src` and is not yet
registered, it is registered via `get_key_config(sensor_name).copy()`
(an exact-match table hit, since `n` is a table key); if its metadata
lacks `unit_of_measurement`, the aliased write sets it to `None` in both
the registry copy and the table entry. -/
def discStep (src : String) (st : PubState) (n : String) : PubState :=
  match st.table.lookup n with
  | none => st
  | some c =>
    if c.source = some src ∧ (st.seen.lookup n).isNone then
      if (c.metadata.lookup "unit_of_measurement").isNone then
        let md := dictSet c.metadata "unit_of_measurement" MetaValue.null
        { table := st.table.map (fun p =>
            if p.1 = n then (p.1, { c with metadata := md }) else p),
          seen := st.seen ++ [(n, { c with metadata := md })] }
      else { st with seen := st.seen ++ [(n, c)] }
    else st

/-- `ConfigPublisher._discover_derived_sensors` (config_publisher.py):
scan the full static table, in order, for entries whose `source` is the
newly discovered key.  The scan is one level: it does not recurse into
the entries it registers. -/
def discoverDerived (st : PubState) (src : String) : PubState :=
  (st.table.map Prod.fst).foldl (discStep src) st

/-- The discovery body of `ConfigPublisher.process_packet` for one
not-yet-seen key (config_publisher.py):
`seen[key] |= get_key_config(key)` starting from the defaultdict's fresh
`{}`, then underlay the externally classified unit metadata
(`seen[key]["metadata"] = get_unit_metadata(key, us) | ...`), then
cascade to derived sensors.  `um` stands in for `get_unit_metadata`,
whose classifier (`weewx.units.getStandardUnitType`) is an external
collaborator. -/
def observeKey (um : String → List (String × MetaValue)) (st : PubState)
    (key : String) : PubState :=
  let cfg := getKeyConfig st.table key
  let entry := { cfg with metadata := dictMerge (um key) cfg.metadata }
  discoverDerived { st with seen := st.seen ++ [(key, entry)] } key

/-- One iteration of `for key in packet.keys()` in
`ConfigPublisher.process_packet`: already-seen keys are skipped. -/
def observeStep (um : String → List (String × MetaValue)) (st : PubState)
    (kv : String × Value) : PubState :=
  if (st.seen.lookup kv.1).isSome then st else observeKey um st kv.1

/-- The registry evolution of `ConfigPublisher.process_packet`
(config_publisher.py) over a whole packet (post `to_std_system`). -/
def observeAll (um : String → List (String × MetaValue)) (st : PubState)
    (packet : List (String × Value)) : PubState :=
  packet.foldl (observeStep um) st

/-- `ConfigPublisher.process_packet` including its return value: the
new state, and `found_new_measurements` — true iff some packet key was
absent from the registry when the loop reached it. -/
def observePacket (um : String → List (String × MetaValue)) (st : PubState)
    (packet : List (String × Value)) : PubState × Bool :=
  packet.foldl (fun acc kv =>
      if (acc.1.seen.lookup kv.1).isSome then acc
      else (observeKey um acc.1 kv.1, true)) (st, false)

/-- The constructor arguments of `ConfigPublisher` used by
`publish_discovery`: topics, node id, and the fixed
`device_description` block (as the single `device` pair it is). -/
structure DiscArgs where
  availabilityTopic : String
  discoveryTopicPre : String
  stateTopicPre : String
  nodeId : String
  device : List (String × MetaValue)
deriving DecidableEq, Repr

/-- One discovery message of `ConfigPublisher.publish_discovery`
(config_publisher.py): topic
`<discovery-prefix>/<integration|"sensor">/<node>/<key>/config`, payload
the base dict `|` entry metadata `|` device block with all `None`-valued
top-level keys removed.  The payload is kept structurally
(`json.dumps` is an injective rendering done at the transport
boundary). -/
def discDoc (a : DiscArgs) (n : String) (c : SensorConfig) :
    String × List (String × MetaValue) :=
  let integ := c.integration.getD "sensor"
  let topic := a.discoveryTopicPre ++ "/" ++ integ ++ "/" ++ a.nodeId ++
    "/" ++ n ++ "/config"
  let payload := dictMerge (dictMerge
      [("availability_topic", MetaValue.s a.availabilityTopic),
       ("state_topic", MetaValue.s (a.stateTopicPre ++ "/" ++ n)),
       ("unique_id", MetaValue.s (a.nodeId ++ "_" ++ n))]
      c.metadata) a.device
  (topic, payload.filter (fun p => p.2 ≠ MetaValue.null))

/-- `ConfigPublisher.publish_discovery` (config_publisher.py): one
message per registry entry, in registry order.  The method only reads
`seen_measurements`; the returned state is the input state, reflecting
that no assignment to local state occurs in its body. -/
def publishDiscovery (a : DiscArgs) (st : PubState) :
    PubState × List (String × List (String × MetaValue)) :=
  (st, st.seen.map (fun p => discDoc a p.1 p.2))

/-- `SETTLE_COUNTDOWN_START` (state_publisher.py line 16). -/
def SETTLE_COUNTDOWN_START : Nat := 5

/-- The countdown update at the top of `StatePublisher.process_packet`:
`if self.settled_countdown > 0: self.settled_countdown -= 1`. -/
def settleStep (cd : Nat) : Nat := if cd > 0 then cd - 1 else cd

/-- The countdown after `n` calls to `process_packet`, starting from
`SETTLE_COUNTDOWN_START`. -/
def settleAfter : Nat → Nat
  | 0 => SETTLE_COUNTDOWN_START
  | n + 1 => settleStep (settleAfter n)

/-- `StatePublisher._publish_derived_sensors` (state_publisher.py): over
a snapshot of the registry, publish every entry whose `source` is this
key and that has a `convert_lambda`, applying the lambda to the
*original* (pre-conversion) source value; entries without a lambda only
log a warning.  Returns the published messages in registry order. -/
def derivedMsgs (reg : Registry) (pfx : String) (src : String) (v : Value) :
    List (String × Value) :=
  reg.foldr (fun p acc =>
    if p.2.source = some src then
      match p.2.convLambda with
      | some cv => (pfx ++ "/" ++ p.1, applyConv cv v) :: acc
      | none => acc
    else acc) []

/-- The per-entry body of the packet loop in
`StatePublisher.process_packet` (state_publisher.py): returns the state
messages this entry publishes and the keys it would warn about
(warnings are actually emitted only when the countdown has reached
zero; that gate is applied by `processPacket`).  A `None` value is
skipped before the registry lookup. -/
def stateStep (reg : Registry) (pfx : String) (kv : String × Value) :
    List (String × Value) × List String :=
  if kv.2 = Value.null then ([], [])
  else
    match reg.lookup kv.1 with
    | none => ([], [kv.1])
    | some c =>
      let v := match c.convLambda with
        | some cv => applyConv cv kv.2
        | none => kv.2
      ((pfx ++ "/" ++ kv.1, v) :: derivedMsgs reg pfx kv.1 kv.2, [])

/-- The observable outcome of one `StatePublisher.process_packet` call:
the countdown afterwards, the published state messages in order, and
the missing-configuration warnings emitted. -/
structure StateOut where
  countdown : Nat
  messages : List (String × Value)
  warnings : List String
deriving DecidableEq, Repr

/-- `StatePublisher.process_packet` (state_publisher.py), on the packet
as delivered to the loop (post `to_std_system`): decrement the
countdown, then for each (key, value) pair skip nulls, warn (only once
the countdown is exhausted) on unregistered keys, convert and publish
registered ones, and fan out to derived sensors with the original
value. -/
def processPacket (reg : Registry) (pfx : String) (cd : Nat)
    (packet : List (String × Value)) : StateOut :=
  let cd' := settleStep cd
  let outs := packet.map (stateStep reg pfx)
  { countdown := cd',
    messages := (outs.map Prod.fst).flatten,
    warnings := if cd' = 0 then (outs.map Prod.snd).flatten else [] }

/-- The per-call warning lists of a sequence of
`StatePublisher.process_packet` calls against a fixed registry, starting
from countdown `cd` (the registry does not change across state
publications; only `ConfigPublisher.process_packet` grows it). -/
def warningsTrace (reg : Registry) (pfx : String) :
    Nat → List (List (String × Value)) → List (List String)
  | _, [] => []
  | cd, p :: ps =>
    let o := processPacket reg pfx cd p
    o.warnings :: warningsTrace reg pfx o.countdown ps

/-- `n` is a derived entry of table `t` with source `s`
(the `sensor_config.get("source") == source_key` test of
`_discover_derived_sensors` and `_publish_derived_sensors`). -/
def dependsOn (t : Table) (n s : String) : Prop :=
  ∃ c, List.lookup n t = some c ∧ c.source = some s

/-! ### Association-list helper lemmas -/

theorem lookup_mem {β : Type} {l : List (String × β)} {a : String} {b : β}
    (h : List.lookup a l = some b) : (a, b) ∈ l := by
  induction l with
  | nil => simp [List.lookup] at h
  | cons p t ih =>
    obtain ⟨k, c⟩ := p
    rw [List.lookup_cons] at h
    by_cases hk : a = k
    · subst hk
      simp at h
      subst h
      exact List.mem_cons_self _ _
    · have hba : (a == k) = false := beq_false_of_ne hk
      rw [hba] at h
      exact List.mem_cons_of_mem _ (ih h)

theorem lookup_none_iff {β : Type} {l : List (String × β)} {a : String} :
    List.lookup a l = none ↔ a ∉ l.map Prod.fst := by
  induction l with
  | nil => simp [List.lookup]
  | cons p t ih =>
    obtain ⟨k, c⟩ := p
    rw [List.lookup_cons]
    by_cases hk : a = k
    · subst hk
      simp
    · have hba : (a == k) = false := beq_false_of_ne hk
      rw [hba]
      simp [hk, ih]

theorem lookup_isSome_iff {β : Type} {l : List (String × β)} {a : String} :
    (List.lookup a l).isSome = true ↔ a ∈ l.map Prod.fst := by
  rw [Option.isSome_iff_ne_none]
  constructor
  · intro h
    by_contra hm
    exact h (lookup_none_iff.2 hm)
  · intro h hn
    exact (lookup_none_iff.1 hn) h

theorem lookup_append_right {β : Type} {l t : List (String × β)} {a : String}
    (h : List.lookup a l = none) :
    List.lookup a (l ++ t) = List.lookup a t := by
  induction l with
  | nil => simp
  | cons p r ih =>
    obtain ⟨k, c⟩ := p
    rw [List.lookup_cons] at h
    rw [List.cons_append, List.lookup_cons]
    cases hba : (a == k) with
    | true => rw [hba] at h; simp at h
    | false => rw [hba] at h; exact ih h

theorem mem_keys_of_lookup {β : Type} {l : List (String × β)} {a : String}
    {b : β} (h : List.lookup a l = some b) : a ∈ l.map Prod.fst := by
  refine lookup_isSome_iff.1 ?_
  rw [h]
  rfl

theorem lookup_mapSet {md : List (String × MetaValue)} {k : String}
    {v : MetaValue} :
    List.lookup k (md.map (fun p => if p.1 = k then (k, v) else p)) =
      (if md.any (fun p => p.1 = k) then some v else none) := by
  induction md with
  | nil => simp
  | cons q t ih =>
    obtain ⟨qk, qv⟩ := q
    by_cases hq : qk = k
    · subst hq
      simp [List.lookup_cons]
    · have h1 : ((qk, qv).1 = k) = False := by simp [hq]
      simp only [List.map_cons, h1, if_false, List.any_cons]
      rw [List.lookup_cons]
      have hba : (k == qk) = false := beq_false_of_ne (fun hk => hq hk.symm)
      rw [hba]
      simp only [decide_eq_true_eq]
      rw [ih]
      simp only [decide_False, Bool.false_or]

theorem dictSet_lookup_self {md : List (String × MetaValue)} {k : String}
    {v : MetaValue} : List.lookup k (dictSet md k v) = some v := by
  unfold dictSet
  by_cases h : md.any (fun p => p.1 = k)
  · rw [if_pos h, lookup_mapSet, if_pos h]
  · rw [if_neg h]
    have hko : List.lookup k md = none := by
      rw [lookup_none_iff]
      intro hm
      apply h
      rw [List.any_eq_true]
      rcases List.mem_map.1 hm with ⟨p, hp, hfst⟩
      exact ⟨p, hp, by simpa using hfst⟩
    rw [lookup_append_right hko]
    simp [List.lookup_cons]

/-! ### Facts about the static table, established by evaluation -/

theorem kc_src_has_uom_bool :
    KEY_CONFIG.all (fun p =>
      !p.2.source.isSome ||
        (p.2.metadata.lookup "unit_of_measurement").isSome) = true := by
  decide

/-- Every `KEY_CONFIG` entry that has a `source` (i.e. every derived
sensor definition) also sets `unit_of_measurement` explicitly in its
metadata, so the aliased table write in `_discover_derived_sensors` is
dead code on the shipped table. -/
theorem kc_src_has_uom {n : String} {c : SensorConfig}
    (h : List.lookup n KEY_CONFIG = some c) (hs : c.source.isSome = true) :
    (c.metadata.lookup "unit_of_measurement").isSome = true := by
  have hm := lookup_mem h
  have hb := List.all_eq_true.1 kc_src_has_uom_bool _ hm
  simp only at hb
  rw [hs] at hb
  simpa using hb

theorem kc_no_chain_bool :
    KEY_CONFIG.all (fun p =>
      match p.2.source with
      | none => true
      | some m =>
        match List.lookup m KEY_CONFIG with
        | none => true
        | some cm => cm.source.isNone) = true := by
  decide

/-- No `KEY_CONFIG` entry derives from a key that is itself derived:
`source` chains in the static table have length at most one. -/
theorem kc_no_chain {n m : String} {cn cm : SensorConfig}
    (hn : List.lookup n KEY_CONFIG = some cn) (hs : cn.source = some m)
    (hm : List.lookup m KEY_CONFIG = some cm) : cm.source = none := by
  have hmem := lookup_mem hn
  have hb := List.all_eq_true.1 kc_no_chain_bool _ hmem
  simp only at hb
  rw [hs] at hb
  have hb2 : (match List.lookup m KEY_CONFIG with
    | none => true
    | some cm => cm.source.isNone) = true := hb
  rw [hm] at hb2
  have hb3 : cm.source.isNone = true := hb2
  exact Option.isNone_iff_eq_none.1 hb3

theorem kc_names_bool :
    KEY_CONFIG.all (fun p =>
      match p.2.metadata.lookup "name" with
      | some (MetaValue.s _) => true
      | _ => false) = true := by
  decide

/-- Every `KEY_CONFIG` entry carries a string-valued `name` in its
metadata. -/
theorem kc_name {n : String} {c : SensorConfig}
    (h : List.lookup n KEY_CONFIG = some c) :
    ∃ nm : String, c.metadata.lookup "name" = some (MetaValue.s nm) := by
  have hm := lookup_mem h
  have hb := List.all_eq_true.1 kc_names_bool _ hm
  simp only at hb
  rcases he : c.metadata.lookup "name" with _ | mv
  · rw [he] at hb; simp at hb
  · cases mv with
    | s v => exact ⟨v, rfl⟩
    | _ => rw [he] at hb; simp at hb

/-! ### Structural lemmas about derived-sensor discovery -/

theorem discStep_table {src : String} {st : PubState} {n : String}
    (ht : st.table = KEY_CONFIG) : (discStep src st n).table = KEY_CONFIG := by
  unfold discStep
  rcases hl : st.table.lookup n with _ | c
  · exact ht
  · dsimp only
    by_cases hc : c.source = some src ∧ (st.seen.lookup n).isNone
    · rw [if_pos hc]
      have hsome : c.source.isSome = true := by rw [hc.1]; rfl
      have hlk : List.lookup n KEY_CONFIG = some c := by
        rw [← ht]
        exact hl
      have huom : (c.metadata.lookup "unit_of_measurement").isSome = true :=
        kc_src_has_uom hlk hsome
      have hnu : ¬ (c.metadata.lookup "unit_of_measurement").isNone = true := by
        rw [Option.isNone_iff_eq_none]
        intro he
        rw [he] at huom
        exact Bool.noConfusion huom
      rw [if_neg hnu]
      exact ht
    · rw [if_neg hc]
      exact ht

theorem discStep_seen_mono {src : String} {st : PubState} {n x : String}
    (h : x ∈ regKeys st.seen) : x ∈ regKeys (discStep src st n).seen := by
  unfold discStep
  rcases hl : st.table.lookup n with _ | c
  · exact h
  · dsimp only
    by_cases hc : c.source = some src ∧ (st.seen.lookup n).isNone
    · rw [if_pos hc]
      by_cases hu : (c.metadata.lookup "unit_of_measurement").isNone = true
      · rw [if_pos hu]
        simp only [regKeys, List.map_append, List.mem_append]
        exact Or.inl h
      · rw [if_neg hu]
        simp only [regKeys, List.map_append, List.mem_append]
        exact Or.inl h
    · rw [if_neg hc]
      exact h

theorem discStep_seen_sub {src : String} {st : PubState} {n x : String}
    (h : x ∈ regKeys (discStep src st n).seen) :
    x ∈ regKeys st.seen ∨
      ∃ c, st.table.lookup x = some c ∧ c.source = some src := by
  unfold discStep at h
  rcases hl : st.table.lookup n with _ | c <;> rw [hl] at h
  · exact Or.inl h
  · dsimp only at h
    by_cases hc : c.source = some src ∧ (st.seen.lookup n).isNone
    · rw [if_pos hc] at h
      by_cases hu : (c.metadata.lookup "unit_of_measurement").isNone = true
      · rw [if_pos hu] at h
        simp only [regKeys, List.map_append, List.mem_append] at h
        rcases h with h | h
        · exact Or.inl h
        · simp at h
          subst h
          exact Or.inr ⟨c, hl, hc.1⟩
      · rw [if_neg hu] at h
        simp only [regKeys, List.map_append, List.mem_append] at h
        rcases h with h | h
        · exact Or.inl h
        · simp at h
          subst h
          exact Or.inr ⟨c, hl, hc.1⟩
    · rw [if_neg hc] at h
      exact Or.inl h

theorem discStep_self {src : String} {st : PubState} {n : String} {c : SensorConfig}
    (hl : st.table.lookup n = some c) (hs : c.source = some src) :
    n ∈ regKeys (discStep src st n).seen := by
  by_cases hn : n ∈ regKeys st.seen
  · exact discStep_seen_mono hn
  · unfold discStep
    rw [hl]
    dsimp only
    have hcond : c.source = some src ∧ (st.seen.lookup n).isNone := by
      refine ⟨hs, ?_⟩
      rw [Option.isNone_iff_eq_none, lookup_none_iff]
      exact hn
    rw [if_pos hcond]
    by_cases hu : (c.metadata.lookup "unit_of_measurement").isNone = true
    · rw [if_pos hu]
      simp [regKeys, List.map_append]
    · rw [if_neg hu]
      simp [regKeys, List.map_append]

theorem foldl_disc_table {src : String} {l : List String} {st : PubState}
    (ht : st.table = KEY_CONFIG) :
    (l.foldl (discStep src) st).table = KEY_CONFIG := by
  induction l generalizing st with
  | nil => exact ht
  | cons a t ih =>
    rw [List.foldl_cons]
    exact ih (discStep_table ht)

theorem foldl_disc_mono {src : String} {l : List String} {st : PubState}
    {x : String} (h : x ∈ regKeys st.seen) :
    x ∈ regKeys (l.foldl (discStep src) st).seen := by
  induction l generalizing st with
  | nil => exact h
  | cons a t ih =>
    rw [List.foldl_cons]
    exact ih (discStep_seen_mono h)

theorem foldl_disc_sub {src : String} {l : List String} {st : PubState}
    {x : String} (h : x ∈ regKeys (l.foldl (discStep src) st).seen)
    (ht : st.table = KEY_CONFIG) :
    x ∈ regKeys st.seen ∨
      ∃ c, List.lookup x KEY_CONFIG = some c ∧ c.source = some src := by
  induction l generalizing st with
  | nil => exact Or.inl h
  | cons a t ih =>
    rw [List.foldl_cons] at h
    rcases ih h (discStep_table ht) with hh | hh
    · rcases discStep_seen_sub hh with h2 | h2
      · exact Or.inl h2
      · rw [ht] at h2
        exact Or.inr h2
    · exact Or.inr hh

theorem foldl_disc_complete {src : String} {l : List String} {st : PubState}
    {n : String} {c : SensorConfig} (ht : st.table = KEY_CONFIG)
    (hmem : n ∈ l) (hl : List.lookup n KEY_CONFIG = some c)
    (hs : c.source = some src) :
    n ∈ regKeys (l.foldl (discStep src) st).seen := by
  induction l generalizing st with
  | nil => simp at hmem
  | cons a t ih =>
    rw [List.foldl_cons]
    rcases List.mem_cons.1 hmem with he | hmt
    · subst he
      have hself : n ∈ regKeys (discStep src st n).seen := by
        apply discStep_self _ hs
        rw [ht]
        exact hl
      exact foldl_disc_mono hself
    · exact ih (discStep_table ht) hmt

theorem discoverDerived_table {st : PubState} {src : String}
    (ht : st.table = KEY_CONFIG) :
    (discoverDerived st src).table = KEY_CONFIG :=
  foldl_disc_table ht

theorem discoverDerived_mono {st : PubState} {src x : String}
    (h : x ∈ regKeys st.seen) : x ∈ regKeys (discoverDerived st src).seen :=
  foldl_disc_mono h

theorem discoverDerived_sub {st : PubState} {src x : String}
    (h : x ∈ regKeys (discoverDerived st src).seen)
    (ht : st.table = KEY_CONFIG) :
    x ∈ regKeys st.seen ∨
      ∃ c, List.lookup x KEY_CONFIG = some c ∧ c.source = some src :=
  foldl_disc_sub h ht

theorem discoverDerived_complete {st : PubState} {src n : String}
    {c : SensorConfig} (ht : st.table = KEY_CONFIG)
    (hl : List.lookup n KEY_CONFIG = some c) (hs : c.source = some src) :
    n ∈ regKeys (discoverDerived st src).seen := by
  apply foldl_disc_complete ht _ hl hs
  rw [ht]
  exact mem_keys_of_lookup hl

/-! ### Structural lemmas about registry discovery -/

theorem observeKey_table {um : String → List (String × MetaValue)}
    {st : PubState} {k : String} (ht : st.table = KEY_CONFIG) :
    (observeKey um st k).table = KEY_CONFIG := by
  unfold observeKey
  exact discoverDerived_table ht

theorem observeKey_mono {um : String → List (String × MetaValue)}
    {st : PubState} {k x : String} (h : x ∈ regKeys st.seen) :
    x ∈ regKeys (observeKey um st k).seen := by
  unfold observeKey
  apply discoverDerived_mono
  simp only [regKeys, List.map_append, List.mem_append]
  exact Or.inl h

theorem observeKey_self {um : String → List (String × MetaValue)}
    {st : PubState} {k : String} : k ∈ regKeys (observeKey um st k).seen := by
  unfold observeKey
  apply discoverDerived_mono
  simp [regKeys]

theorem observeKey_complete {um : String → List (String × MetaValue)}
    {st : PubState} {k n : String} {c : SensorConfig}
    (ht : st.table = KEY_CONFIG) (hl : List.lookup n KEY_CONFIG = some c)
    (hs : c.source = some k) : n ∈ regKeys (observeKey um st k).seen := by
  unfold observeKey
  exact discoverDerived_complete ht hl hs

theorem observeKey_sub {um : String → List (String × MetaValue)}
    {st : PubState} {k x : String} (ht : st.table = KEY_CONFIG)
    (h : x ∈ regKeys (observeKey um st k).seen) :
    x ∈ regKeys st.seen ∨ x = k ∨
      ∃ c, List.lookup x KEY_CONFIG = some c ∧ c.source.isSome = true := by
  unfold observeKey at h
  dsimp only at h
  rcases discoverDerived_sub h ht with h1 | h1
  · simp only [regKeys, List.map_append, List.mem_append] at h1
    rcases h1 with h1 | h1
    · exact Or.inl h1
    · simp at h1
      exact Or.inr (Or.inl h1)
  · rcases h1 with ⟨c, hc, hcs⟩
    refine Or.inr (Or.inr ⟨c, hc, ?_⟩)
    rw [hcs]
    rfl

theorem observeStep_table {um : String → List (String × MetaValue)}
    {st : PubState} {kv : String × Value} (ht : st.table = KEY_CONFIG) :
    (observeStep um st kv).table = KEY_CONFIG := by
  unfold observeStep
  by_cases hg : (st.seen.lookup kv.1).isSome = true
  · rw [if_pos hg]
    exact ht
  · rw [if_neg hg]
    exact observeKey_table ht

theorem observeStep_mono {um : String → List (String × MetaValue)}
    {st : PubState} {kv : String × Value} {x : String}
    (h : x ∈ regKeys st.seen) : x ∈ regKeys (observeStep um st kv).seen := by
  unfold observeStep
  by_cases hg : (st.seen.lookup kv.1).isSome = true
  · rw [if_pos hg]
    exact h
  · rw [if_neg hg]
    exact observeKey_mono h

theorem observeAll_table {um : String → List (String × MetaValue)}
    {st : PubState} {packet : List (String × Value)}
    (ht : st.table = KEY_CONFIG) :
    (observeAll um st packet).table = KEY_CONFIG := by
  induction packet generalizing st with
  | nil => exact ht
  | cons kv t ih =>
    unfold observeAll
    rw [List.foldl_cons]
    exact ih (observeStep_table ht)

theorem observeAll_mono {um : String → List (String × MetaValue)}
    {st : PubState} {packet : List (String × Value)} {x : String}
    (h : x ∈ regKeys st.seen) : x ∈ regKeys (observeAll um st packet).seen := by
  induction packet generalizing st with
  | nil => exact h
  | cons kv t ih =>
    unfold observeAll
    rw [List.foldl_cons]
    exact ih (observeStep_mono h)

theorem observeAll_self {um : String → List (String × MetaValue)}
    {st : PubState} {packet : List (String × Value)} {k : String} {v : Value}
    (hmem : (k, v) ∈ packet) :
    k ∈ regKeys (observeAll um st packet).seen := by
  induction packet generalizing st with
  | nil => simp at hmem
  | cons kv t ih =>
    unfold observeAll
    rw [List.foldl_cons]
    rcases List.mem_cons.1 hmem with he | hmt
    · have hk : k ∈ regKeys (observeStep um st kv).seen := by
        unfold observeStep
        by_cases hg : (st.seen.lookup kv.1).isSome = true
        · rw [if_pos hg]
          rw [← he] at hg
          exact lookup_isSome_iff.1 hg
        · rw [if_neg hg, ← he]
          exact observeKey_self
      exact observeAll_mono hk
    · exact ih hmt

/-- The key invariant behind cascading discovery: any key that becomes
registered during one `process_packet` call has all its one-hop
dependents (entries of the static table whose `source` is that key)
registered by the end of the call. -/
theorem observeAll_inv {um : String → List (String × MetaValue)}
    {st : PubState} {packet : List (String × Value)} {s n : String}
    {c : SensorConfig} (ht : st.table = KEY_CONFIG)
    (hsNew : s ∈ regKeys (observeAll um st packet).seen)
    (hsOld : s ∉ regKeys st.seen)
    (hl : List.lookup n KEY_CONFIG = some c) (hs : c.source = some s) :
    n ∈ regKeys (observeAll um st packet).seen := by
  induction packet generalizing st with
  | nil => exact absurd hsNew hsOld
  | cons kv t ih =>
    unfold observeAll at hsNew ⊢
    rw [List.foldl_cons] at hsNew ⊢
    by_cases hg : (st.seen.lookup kv.1).isSome = true
    · have hstep : observeStep um st kv = st := by
        unfold observeStep
        rw [if_pos hg]
      rw [hstep] at hsNew ⊢
      exact ih ht hsNew hsOld
    · have hstep : observeStep um st kv = observeKey um st kv.1 := by
        unfold observeStep
        rw [if_neg hg]
      rw [hstep] at hsNew ⊢
      by_cases hs1 : s ∈ regKeys (observeKey um st kv.1).seen
      · rcases observeKey_sub ht hs1 with h1 | h1 | h1
        · exact absurd h1 hsOld
        · subst h1
          exact observeAll_mono (observeKey_complete ht hl hs)
        · rcases h1 with ⟨cs, hcs, hcsrc⟩
          rcases Option.isSome_iff_exists.1 hcsrc with ⟨m, hm⟩
          have : cs.source = none := kc_no_chain hl hs hcs
          rw [this] at hm
          exact Option.noConfusion hm
      · exact ih (observeKey_table ht) hsNew hs1

theorem observePacket_fst {um : String → List (String × MetaValue)}
    {st : PubState} {packet : List (String × Value)} :
    (observePacket um st packet).1 = observeAll um st packet := by
  suffices haux : ∀ (p : List (String × Value)) (st0 : PubState) (b : Bool),
      (p.foldl (fun acc kv =>
        if (acc.1.seen.lookup kv.1).isSome then acc
        else (observeKey um acc.1 kv.1, true)) (st0, b)).1 =
        observeAll um st0 p by
    exact haux packet st false
  intro p
  induction p with
  | nil =>
    intro st0 b
    rfl
  | cons kv t ih =>
    intro st0 b
    rw [List.foldl_cons]
    unfold observeAll
    rw [List.foldl_cons]
    by_cases hg : (st0.seen.lookup kv.1).isSome = true
    · rw [if_pos hg]
      have hstep : observeStep um st0 kv = st0 := by
        unfold observeStep
        rw [if_pos hg]
      rw [hstep]
      exact ih st0 b
    · rw [if_neg hg]
      have hstep : observeStep um st0 kv = observeKey um st0 kv.1 := by
        unfold observeStep
        rw [if_neg hg]
      rw [hstep]
      exact ih (observeKey um st0 kv.1) true

/-! ### Lemmas about state publication -/

theorem settleAfter_eq (n : Nat) : settleAfter n = 5 - min n 5 := by
  induction n with
  | zero => rfl
  | succ m ih =>
    show settleStep (settleAfter m) = 5 - min (m + 1) 5
    rw [ih]
    unfold settleStep
    by_cases h : 5 - min m 5 > 0
    · rw [if_pos h]
      omega
    · rw [if_neg h]
      omega

/-- Membership in the warnings of one `process_packet` call: a warning
for `k` is emitted iff the countdown (after this call's decrement) has
reached zero and `k` occurs in the packet with a non-null value while
missing from the registry. -/
theorem warn_mem_iff {reg : Registry} {pfx : String} {cd : Nat}
    {packet : List (String × Value)} {k : String} :
    k ∈ (processPacket reg pfx cd packet).warnings ↔
      (settleStep cd = 0 ∧
        ∃ v, (k, v) ∈ packet ∧ v ≠ Value.null ∧ reg.lookup k = none) := by
  unfold processPacket
  dsimp only
  by_cases hcd : settleStep cd = 0
  · rw [if_pos hcd]
    simp only [hcd, true_and]
    rw [List.mem_flatten]
    constructor
    · rintro ⟨l, hl, hkl⟩
      rcases List.mem_map.1 hl with ⟨o, ho, rfl⟩
      rcases List.mem_map.1 ho with ⟨kv, hkv, rfl⟩
      obtain ⟨a, v⟩ := kv
      unfold stateStep at hkl
      by_cases hv : v = Value.null
      · rw [if_pos hv] at hkl
        simp at hkl
      · rw [if_neg hv] at hkl
        rcases hr : List.lookup a reg with _ | c <;> rw [hr] at hkl
        · dsimp only at hkl
          rcases List.mem_singleton.1 hkl with rfl
          exact ⟨v, hkv, hv, hr⟩
        · dsimp only at hkl
          simp at hkl
    · rintro ⟨v, hkv, hv, hr⟩
      refine ⟨(stateStep reg pfx (k, v)).2, ?_, ?_⟩
      · exact List.mem_map_of_mem _ (List.mem_map_of_mem _ hkv)
      · unfold stateStep
        rw [if_neg hv, hr]
        exact List.mem_singleton.2 rfl
  · rw [if_neg hcd]
    simp [hcd]

/-- A null-valued packet entry contributes nothing to state
publication: deleting it changes neither the messages nor the
warnings (nor, trivially, the countdown). -/
theorem processPacket_null_erase {reg : Registry} {pfx : String} {cd : Nat}
    {p1 p2 : List (String × Value)} {k : String} :
    processPacket reg pfx cd (p1 ++ (k, Value.null) :: p2) =
      processPacket reg pfx cd (p1 ++ p2) := by
  have hnull : stateStep reg pfx (k, Value.null) = ([], []) := by
    unfold stateStep
    rw [if_pos rfl]
  unfold processPacket
  rw [List.map_append, List.map_cons, hnull,
      List.map_append]
  dsimp only
  rw [List.map_append, List.map_cons, List.map_append,
      List.flatten_append, List.flatten_cons,
      List.flatten_append,
      List.map_append, List.map_cons, List.map_append,
      List.flatten_append, List.flatten_cons, List.flatten_append]
  simp

/-- Membership in `_publish_derived_sensors` output. -/
theorem derivedMsgs_mem {reg : Registry} {pfx src : String} {v : Value}
    {n : String} {d : SensorConfig} {cv : Conv} (hmem : (n, d) ∈ reg)
    (hs : d.source = some src) (hcv : d.convLambda = some cv) :
    (pfx ++ "/" ++ n, applyConv cv v) ∈ derivedMsgs reg pfx src v := by
  induction reg with
  | nil => simp at hmem
  | cons p t ih =>
    unfold derivedMsgs
    rw [List.foldr_cons]
    rcases List.mem_cons.1 hmem with he | hmt
    · subst he
      rw [if_pos hs, hcv]
      exact List.mem_cons_self _ _
    · have hrec := ih hmt
      by_cases hps : p.2.source = some src
      · rw [if_pos hps]
        rcases hpl : p.2.convLambda with _ | cv2 <;> dsimp only
        · exact hrec
        · exact List.mem_cons_of_mem _ hrec
      · rw [if_neg hps]
        exact hrec

/-- The messages of one packet entry all appear in the call's
messages. -/
theorem stateStep_sub_messages {reg : Registry} {pfx : String} {cd : Nat}
    {packet : List (String × Value)} {kv : String × Value}
    {x : String × Value} (hmem : kv ∈ packet)
    (hx : x ∈ (stateStep reg pfx kv).1) :
    x ∈ (processPacket reg pfx cd packet).messages := by
  unfold processPacket
  dsimp only
  rw [List.mem_flatten]
  exact ⟨(stateStep reg pfx kv).1,
    List.mem_map_of_mem _ (List.mem_map_of_mem _ hmem), hx⟩

/-! ### Lemmas about the numeric-suffix split -/

theorem takeWhile_append_all {p : Char → Bool} {l t : List Char}
    (h : ∀ x ∈ l, p x = true) :
    List.takeWhile p (l ++ t) = l ++ List.takeWhile p t := by
  induction l with
  | nil => simp
  | cons a r ih =>
    rw [List.cons_append, List.takeWhile_cons,
        if_pos (h a (List.mem_cons_self a r)),
        ih (fun x hx => h x (List.mem_cons_of_mem a hx)), List.cons_append]

theorem dropWhile_append_all {p : Char → Bool} {l t : List Char}
    (h : ∀ x ∈ l, p x = true) :
    List.dropWhile p (l ++ t) = List.dropWhile p t := by
  induction l with
  | nil => simp
  | cons a r ih =>
    rw [List.cons_append, List.dropWhile_cons,
        if_pos (h a (List.mem_cons_self a r)),
        ih (fun x hx => h x (List.mem_cons_of_mem a hx))]

theorem takeWhile_eq_nil {p : Char → Bool} {l : List Char}
    (h : ∀ ch, l.head? = some ch → p ch = false) :
    List.takeWhile p l = [] := by
  cases l with
  | nil => rfl
  | cons a r =>
    rw [List.takeWhile_cons, if_neg]
    rw [h a rfl]
    exact Bool.false_ne_true

theorem dropWhile_eq_self {p : Char → Bool} {l : List Char}
    (h : ∀ ch, l.head? = some ch → p ch = false) :
    List.dropWhile p l = l := by
  cases l with
  | nil => rfl
  | cons a r =>
    rw [List.dropWhile_cons, if_neg]
    rw [h a rfl]
    exact Bool.false_ne_true

/-- The regex `(.*?)(\x5cd+)$` of `get_key_config` on a key of the form
`<base><digits>`: when the digit suffix is nonempty and all digits, and
the base does not end in a digit, the lazy match yields exactly that
decomposition. -/
theorem splitDigits_append {base ds : String} (hne : ds.toList ≠ [])
    (hds : ∀ ch ∈ ds.toList, ch.isDigit = true)
    (hbase : ∀ ch, base.toList.reverse.head? = some ch → ch.isDigit = false) :
    splitDigits (base ++ ds) = some (base, ds) := by
  unfold splitDigits
  have hdata : (base ++ ds).toList = base.toList ++ ds.toList := by
    simp [String.toList, String.data_append]
  rw [hdata, List.reverse_append]
  dsimp only
  have hrevds : ∀ x ∈ ds.toList.reverse, Char.isDigit x = true := by
    intro x hx
    exact hds x (List.mem_reverse.1 hx)
  rw [takeWhile_append_all hrevds, takeWhile_eq_nil hbase,
      dropWhile_append_all hrevds, dropWhile_eq_self hbase]
  have hnonempty : ¬ (ds.toList.reverse ++ ([] : List Char)).isEmpty = true := by
    rw [List.append_nil]
    cases hd : ds.toList with
    | nil => exact absurd hd hne
    | cons a r => simp
  rw [if_neg hnonempty]
  rw [List.append_nil, List.reverse_reverse, List.reverse_reverse]
  rfl

theorem transGen_last {α : Type} {r : α → α → Prop} {a b : α}
    (h : Relation.TransGen r a b) : ∃ x, r x b := by
  induction h with
  | single h1 => exact ⟨_, h1⟩
  | tail hc hs ih => exact ⟨_, hs⟩

theorem ratTrunc_eq_floor {q : ℚ} (h : 0 ≤ q) : ratTrunc q = ⌊q⌋ := by
  unfold ratTrunc
  rw [Rat.floor_def]
  exact Int.tdiv_eq_ediv (Rat.num_nonneg.2 h) (by positivity)

/-! ### The claims -/

/-- C1 counterexample: with the default grace counter of 5, running five
state-publication calls from a fresh publisher against an empty registry,
each packet holding the unregistered non-null key `foo`, emits a
missing-configuration warning already on the **5th** call — the claim
says no warning is emitted during the first 5 calls. -/
theorem settle_fifth_call_warns :
    warningsTrace [] "s" SETTLE_COUNTDOWN_START
      (List.replicate 5 [("foo", Value.num 1)]) =
      [[], [], [], [], ["foo"]] := by
  decide

/-- C1 (amended): with the default grace counter of 5, the
missing-configuration warning for an unregistered, non-null packet key is
suppressed during the first 4 calls to state publication and emitted from
the 5th call onward; the counter decrements exactly once per call
regardless of the packet's contents, stops at zero, and is never
replenished (countdown after `n` calls is `5 - min n 5`). -/
theorem settle_warning_schedule (n : Nat) (reg : Registry) (pfx : String)
    (packet : List (String × Value)) (k : String) :
    settleAfter n = 5 - min n 5 ∧
    ((processPacket reg pfx (settleAfter n) packet).warnings ≠ [] → 4 ≤ n) ∧
    (∀ v : Value, 4 ≤ n → (k, v) ∈ packet → v ≠ Value.null →
      reg.lookup k = none →
      k ∈ (processPacket reg pfx (settleAfter n) packet).warnings) := by
  refine ⟨settleAfter_eq n, ?_, ?_⟩
  · intro hw
    by_cases h0 : settleStep (settleAfter n) = 0
    · have h1 : settleAfter (n + 1) = 0 := h0
      rw [settleAfter_eq] at h1
      omega
    · exfalso
      apply hw
      unfold processPacket
      dsimp only
      rw [if_neg h0]
  · intro v hn hv hnn hr
    apply warn_mem_iff.2
    refine ⟨?_, v, hv, hnn, hr⟩
    have h1 : settleAfter (n + 1) = 5 - min (n + 1) 5 := settleAfter_eq (n + 1)
    have h2 : settleStep (settleAfter n) = settleAfter (n + 1) := rfl
    rw [h2, h1]
    omega

theorem settle_warning_schedule_witness :
    "foo" ∈ (processPacket [] "s" (settleAfter 4)
      [("foo", Value.num 1)]).warnings :=
  (settle_warning_schedule 4 [] "s" [("foo", Value.num 1)] "foo").2.2
    (Value.num 1) (by decide) (by decide) (by decide) (by decide)

/-- C2: one `ConfigPublisher.process_packet` call registers every
derived entry of the static sensor table transitively reachable via
`source` chains from any key newly discovered in that call.  (On the
shipped table every chain has length one — `kc_no_chain` — so the
one-hop cascade of `_discover_derived_sensors` is transitively
complete.)  The registry may hold arbitrary prior content and the unit
classifier `um` is arbitrary. -/
theorem observe_registers_transitive_dependents
    (um : String → List (String × MetaValue)) (st : PubState)
    (packet : List (String × Value)) (k n : String)
    (ht : st.table = KEY_CONFIG)
    (hnew : k ∈ regKeys (observePacket um st packet).1.seen)
    (hold : k ∉ regKeys st.seen)
    (hreach : Relation.TransGen (fun a b => dependsOn KEY_CONFIG b a) k n) :
    n ∈ regKeys (observePacket um st packet).1.seen := by
  rw [observePacket_fst] at hnew ⊢
  induction hreach with
  | single h1 =>
    rcases h1 with ⟨c, hc, hs⟩
    exact observeAll_inv ht hnew hold hc hs
  | tail hchain hstep ih =>
    exfalso
    rcases transGen_last hchain with ⟨x, hxb⟩
    rcases hxb with ⟨cb, hcb, hcbs⟩
    rcases hstep with ⟨cn, hcn, hcns⟩
    have hnone := kc_no_chain hcn hcns hcb
    rw [hnone] at hcbs
    exact Option.noConfusion hcbs

set_option maxRecDepth 1000000 in
theorem observe_registers_transitive_dependents_witness :
    "windDirCardinal" ∈ regKeys (observePacket (fun _ => [])
      { table := KEY_CONFIG, seen := [] } [("windDir", Value.num 45)]).1.seen :=
  observe_registers_transitive_dependents (fun _ => [])
    { table := KEY_CONFIG, seen := [] } [("windDir", Value.num 45)]
    "windDir" "windDirCardinal" rfl (by decide) (by decide)
    (Relation.TransGen.single
      ⟨{ source := some "windDir", convLambda := some Conv.toCardinal,
         metadata := [("device_class", MetaValue.s "enum"),
           ("icon", MetaValue.s "mdi:compass-rose"),
           ("name", MetaValue.s "Wind Direction Cardinal"),
           ("options", MetaValue.strList cardinalDirections),
           ("unit_of_measurement", MetaValue.null)] },
       by decide, rfl⟩)

/-- C3 counterexample: `windDir10` has the form `<base><digits>` with
base `windDir` in the static table, but `resolve` returns the exact
`windDir10` entry (name `10-Minute Wind Direction`), not the base's
metadata with name `Wind Direction 10` — the exact-match branch of
`get_key_config` takes precedence over suffix stripping. -/
theorem suffix_claim_fails_on_exact_match :
    "windDir10" = "windDir" ++ "10" ∧
    (List.lookup "windDir" KEY_CONFIG).isSome = true ∧
    (∀ ch ∈ "10".toList, ch.isDigit = true) ∧
    (getKeyConfig KEY_CONFIG "windDir10").metadata.lookup "name" =
      some (MetaValue.s "10-Minute Wind Direction") ∧
    ¬ (getKeyConfig KEY_CONFIG "windDir10").metadata.lookup "name" =
      some (MetaValue.s "Wind Direction 10") := by
  decide

/-- C3 (amended): for every key of the form `<base><digits>` that is
*not itself* a key of the static table, where `<digits>` is the key's
entire trailing digit run and `<base>` is a key of the table,
`resolve(key)` returns the base entry's metadata with its display name
suffixed by a space and the digit run (e.g. `extraTemp3` yields
`Extra Temperature 3` from base name `Extra Temperature`). -/
theorem suffix_resolution (key base ds nm : String) (c : SensorConfig)
    (hk : key = base ++ ds) (hne : ds.toList ≠ [])
    (hds : ∀ ch ∈ ds.toList, ch.isDigit = true)
    (hbase : base.toList.reverse.head?.all (fun ch => !ch.isDigit) = true)
    (hexact : List.lookup key KEY_CONFIG = none)
    (hc : List.lookup base KEY_CONFIG = some c)
    (hnm : c.metadata.lookup "name" = some (MetaValue.s nm)) :
    getKeyConfig KEY_CONFIG key =
      { c with metadata :=
          dictSet c.metadata "name" (MetaValue.s (nm ++ " " ++ ds)) } := by
  subst hk
  have hbase2 : ∀ ch, base.toList.reverse.head? = some ch →
      ch.isDigit = false := by
    intro ch h
    rw [h] at hbase
    simpa using hbase
  unfold getKeyConfig
  rw [hexact, splitDigits_append hne hds hbase2]
  dsimp only
  rw [hc]
  dsimp only
  rw [hnm]
  rfl

theorem suffix_resolution_witness :
    (getKeyConfig KEY_CONFIG "extraTemp3").metadata.lookup "name" =
      some (MetaValue.s "Extra Temperature 3") := by
  have h := suffix_resolution "extraTemp3" "extraTemp" "3" "Extra Temperature"
    { metadata := [("device_class", MetaValue.s "temperature"),
        ("icon", MetaValue.s "mdi:thermometer"),
        ("name", MetaValue.s "Extra Temperature"),
        ("state_class", MetaValue.s "measurement")] }
    (by decide) (by decide) (by decide) (by decide) (by decide) (by decide)
    (by decide)
  rw [h]
  decide

/-- The general floor characterization of `degrees_to_cardinal` on
non-negative input: Python `int()` truncation coincides with `floor`
there.  (Rational arithmetic is evaluated through `norm_num` because the
kernel cannot reduce `Nat.gcd`-normalized rationals.) -/
theorem degreesToCardinal_floorEq (x : ℚ) (hx : 0 ≤ x) :
    degreesToCardinal x =
      cardinalDirections.getD ((⌊(x + 11.25) / 22.5⌋ % 16).toNat) "" := by
  unfold degreesToCardinal
  have hq : 0 ≤ (x + 11.25) / 22.5 := by
    apply div_nonneg
    · linarith
    · norm_num
  rw [ratTrunc_eq_floor hq]

theorem degreesToCardinal_45 : degreesToCardinal 45 = "NE" := by
  rw [degreesToCardinal_floorEq 45 (by norm_num)]
  have h1 : ⌊((45 : ℚ) + 11.25) / 22.5⌋ = 2 := by
    rw [Int.floor_eq_iff]
    norm_num
  rw [h1]
  rfl

/-- C4: `degrees_to_cardinal` computes
`floor((degrees + 11.25) / 22.5) mod 16` indexed into the 16-entry
cardinal map for all non-negative inputs (Python `int()` truncates
toward zero, which coincides with `floor` on the non-negative quotients
arising from compass degrees 0–360); in particular 0 ↦ `N`,
11.25 ↦ `NNE`, and 359 ↦ `N` (wraparound). -/
theorem degrees_to_cardinal_floor (d : ℚ) (hd : 0 ≤ d) :
    degreesToCardinal d =
      cardinalDirections.getD ((⌊(d + 11.25) / 22.5⌋ % 16).toNat) "" ∧
    degreesToCardinal 0 = "N" ∧ degreesToCardinal 11.25 = "NNE" ∧
    degreesToCardinal 359 = "N" := by
  refine ⟨degreesToCardinal_floorEq d hd, ?_, ?_, ?_⟩
  · rw [degreesToCardinal_floorEq 0 le_rfl]
    have h1 : ⌊((0 : ℚ) + 11.25) / 22.5⌋ = 0 := by
      rw [Int.floor_eq_iff]
      norm_num
    rw [h1]
    rfl
  · rw [degreesToCardinal_floorEq 11.25 (by norm_num)]
    have h1 : ⌊((11.25 : ℚ) + 11.25) / 22.5⌋ = 1 := by
      rw [Int.floor_eq_iff]
      norm_num
    rw [h1]
    rfl
  · rw [degreesToCardinal_floorEq 359 (by norm_num)]
    have h1 : ⌊((359 : ℚ) + 11.25) / 22.5⌋ = 16 := by
      rw [Int.floor_eq_iff]
      norm_num
    rw [h1]
    rfl

theorem degrees_to_cardinal_floor_witness :
    degreesToCardinal 90 =
      cardinalDirections.getD ((⌊((90 : ℚ) + 11.25) / 22.5⌋ % 16).toNat) "" :=
  (degrees_to_cardinal_floor 90 (by norm_num)).1

/-- C5: when state publication processes a packet entry `(k, v)` with
`v` non-null and `k` registered, every registry entry `n` whose `source`
is `k` and that defines a conversion is published on
`<state-prefix>/<n>` with the conversion applied to the original packet
value `v` (the value captured *before* `k`'s own conversion is applied);
e.g. with `windDir = 45` the published `windDirCardinal` value is
`degrees_to_cardinal(45) = "NE"` however `windDir` itself is
displayed. -/
theorem derived_sensor_uses_original_value (reg : Registry) (pfx : String)
    (cd : Nat) (packet : List (String × Value)) (k n : String) (v : Value)
    (c d : SensorConfig) (cv : Conv)
    (hv : (k, v) ∈ packet) (hnn : v ≠ Value.null)
    (hk : reg.lookup k = some c) (hn : (n, d) ∈ reg)
    (hsrc : d.source = some k) (hcv : d.convLambda = some cv) :
    (pfx ++ "/" ++ n, applyConv cv v) ∈
      (processPacket reg pfx cd packet).messages := by
  apply stateStep_sub_messages hv
  unfold stateStep
  rw [if_neg hnn, hk]
  dsimp only
  exact List.mem_cons_of_mem _ (derivedMsgs_mem hn hsrc hcv)

theorem derived_sensor_uses_original_value_witness :
    ("s/windDirCardinal", Value.str "NE") ∈
      (processPacket
        [("windDir", {}),
         ("windDirCardinal",
          { source := some "windDir", convLambda := some Conv.toCardinal })]
        "s" 5 [("windDir", Value.num 45)]).messages := by
  have h := derived_sensor_uses_original_value
    [("windDir", {}),
     ("windDirCardinal",
      { source := some "windDir", convLambda := some Conv.toCardinal })]
    "s" 5 [("windDir", Value.num 45)] "windDir" "windDirCardinal"
    (Value.num 45) {}
    { source := some "windDir", convLambda := some Conv.toCardinal }
    Conv.toCardinal
    (by decide) (by decide) (by decide) (by decide) (by decide) (by decide)
  have he : applyConv Conv.toCardinal (Value.num 45) = Value.str "NE" := by
    rw [show applyConv Conv.toCardinal (Value.num 45) =
      Value.str (degreesToCardinal 45) from rfl, degreesToCardinal_45]
  rw [← he]
  exact h

set_option maxRecDepth 1000000 in
/-- C6 counterexample: in the packet
`{windDir: 45, windDirCardinal: null}` against the registry the
publishers themselves build from that packet, `windDirCardinal` is a
packet key whose value is null, yet state publication *does* emit a
state message on that key's topic (`s/windDirCardinal` = `NE`) — it
arrives via the derived-sensor scan triggered by `windDir`, not via the
null entry. -/
theorem null_valued_derived_key_still_published :
    List.lookup "windDirCardinal"
        [("windDir", Value.num 45), ("windDirCardinal", Value.null)] =
      some Value.null ∧
    ("s/windDirCardinal", Value.str "NE") ∈
      (processPacket
        (observeAll (fun _ => []) { table := KEY_CONFIG, seen := [] }
          [("windDir", Value.num 45), ("windDirCardinal", Value.null)]).seen
        "s" 0
        [("windDir", Value.num 45), ("windDirCardinal", Value.null)]).messages := by
  refine ⟨by decide, ?_⟩
  apply stateStep_sub_messages
    (show ("windDir", Value.num 45) ∈
      [("windDir", Value.num 45), ("windDirCardinal", Value.null)] by decide)
  unfold stateStep
  rw [if_neg (show ¬ (("windDir", Value.num 45).2 = Value.null) by decide)]
  rcases hW : List.lookup "windDir"
      (observeAll (fun _ => []) { table := KEY_CONFIG, seen := [] }
        [("windDir", Value.num 45), ("windDirCardinal", Value.null)]).seen
    with _ | cW
  · exfalso
    have hS : (List.lookup "windDir"
        (observeAll (fun _ => []) { table := KEY_CONFIG, seen := [] }
          [("windDir", Value.num 45), ("windDirCardinal", Value.null)]).seen).isSome
        = true := by decide
    rw [hW] at hS
    exact Bool.noConfusion hS
  · dsimp only
    apply List.mem_cons_of_mem
    have he : applyConv Conv.toCardinal (Value.num 45) = Value.str "NE" := by
      rw [show applyConv Conv.toCardinal (Value.num 45) =
        Value.str (degreesToCardinal 45) from rfl, degreesToCardinal_45]
    rw [← he]
    apply derivedMsgs_mem
    · show ("windDirCardinal",
        { source := some "windDir", convLambda := some Conv.toCardinal,
          metadata := [("device_class", MetaValue.s "enum"),
            ("icon", MetaValue.s "mdi:compass-rose"),
            ("name", MetaValue.s "Wind Direction Cardinal"),
            ("options", MetaValue.strList cardinalDirections),
            ("unit_of_measurement", MetaValue.null)] }) ∈ _
      decide
    · rfl
    · rfl

/-- C6 (amended): a null-valued packet entry itself produces no state
message and no missing-configuration warning, whether or not the key is
registered — deleting the entry leaves the call's entire output
(messages, warnings, countdown) unchanged, and a warning is only ever
emitted for a key occurring with a non-null value while unregistered.
(A message on the null key's *topic* can still arrive via the
derived-sensor scan of a different source key; see the
counterexample.) -/
theorem null_entry_contributes_nothing (reg : Registry) (pfx : String)
    (cd : Nat) (p1 p2 : List (String × Value)) (k w : String) :
    processPacket reg pfx cd (p1 ++ (k, Value.null) :: p2) =
      processPacket reg pfx cd (p1 ++ p2) ∧
    (w ∈ (processPacket reg pfx cd (p1 ++ p2)).warnings →
      ∃ v, (w, v) ∈ p1 ++ p2 ∧ v ≠ Value.null ∧ reg.lookup w = none) := by
  refine ⟨processPacket_null_erase, ?_⟩
  intro hw
  rcases warn_mem_iff.1 hw with ⟨h0, v, hv, hnn, hr⟩
  exact ⟨v, hv, hnn, hr⟩

theorem null_entry_contributes_nothing_witness :
    processPacket [] "s" 1 [("bar", Value.null), ("foo", Value.num 1)] =
      processPacket [] "s" 1 [("foo", Value.num 1)] ∧
    ∃ v, ("foo", v) ∈ [("foo", Value.num 1)] ∧ v ≠ Value.null ∧
      List.lookup "foo" ([] : Registry) = none := by
  have h := null_entry_contributes_nothing [] "s" 1 [] [("foo", Value.num 1)]
    "bar" "foo"
  exact ⟨h.1, h.2 (by decide)⟩

/-- C7: `publish_discovery` mutates no local state (the state it
returns is its input state), and two consecutive invocations with no
intervening registry change produce structurally identical sequences of
(topic, document) pairs. -/
theorem publish_discovery_pure_idempotent (a : DiscArgs) (st : PubState) :
    (publishDiscovery a st).1 = st ∧
    (publishDiscovery a (publishDiscovery a st).1).2 =
      (publishDiscovery a st).2 :=
  ⟨rfl, rfl⟩

/-- C8: the key resolver is total: for every input string — including
the empty string, all-digit keys, and keys matching no table entry —
`get_key_config` returns a metadata record containing a (string-valued)
display name, falling back to the synthesized-name guess when no exact
or suffix match exists. -/
theorem get_key_config_total (key : String) :
    ∃ nm : String, (getKeyConfig KEY_CONFIG key).metadata.lookup "name" =
      some (MetaValue.s nm) := by
  unfold getKeyConfig
  rcases he : List.lookup key KEY_CONFIG with _ | c
  · dsimp only
    rcases hs : splitDigits key with _ | bd
    · dsimp only
      unfold guessCfg
      dsimp only
      exact ⟨guessName key, dictSet_lookup_self⟩
    · obtain ⟨base, ds⟩ := bd
      dsimp only
      rcases hb : List.lookup base KEY_CONFIG with _ | c2
      · dsimp only
        unfold guessCfg
        dsimp only
        exact ⟨guessName key, dictSet_lookup_self⟩
      · dsimp only
        exact ⟨mvStr (c2.metadata.lookup "name") ++ " " ++ ds,
          dictSet_lookup_self⟩
  · exact kc_name he

set_option maxRecDepth 1000000 in
/-- C9 counterexample: `gustdirCardinal` appears only with a null value
in the one packet observed (so it is registered purely by presence), yet
state publication of that same packet *does* emit a value for it
(`s/gustdirCardinal` = `NE`), delivered by the derived-sensor scan of
`gustdir` — the claim's "state publication never emits a value for it"
part fails for null-valued keys that are registered derived sensors. -/
theorem null_only_key_gets_derived_state_message :
    (∀ v : Value, ("gustdirCardinal", v) ∈
        [("gustdir", Value.num 45), ("gustdirCardinal", Value.null)] →
        v = Value.null) ∧
    "gustdirCardinal" ∈ regKeys
      (observeAll (fun _ => []) { table := KEY_CONFIG, seen := [] }
        [("gustdir", Value.num 45), ("gustdirCardinal", Value.null)]).seen ∧
    ("s/gustdirCardinal", Value.str "NE") ∈
      (processPacket
        (observeAll (fun _ => []) { table := KEY_CONFIG, seen := [] }
          [("gustdir", Value.num 45), ("gustdirCardinal", Value.null)]).seen
        "s" 5
        [("gustdir", Value.num 45), ("gustdirCardinal", Value.null)]).messages := by
  refine ⟨?_, by decide, ?_⟩
  · intro v h
    rcases List.mem_cons.1 h with h1 | h1
    · have h3 : "gustdirCardinal" = "gustdir" := congrArg Prod.fst h1
      exact absurd h3 (by decide)
    · have h2 := List.mem_singleton.1 h1
      exact congrArg Prod.snd h2
  · apply stateStep_sub_messages
      (show ("gustdir", Value.num 45) ∈
        [("gustdir", Value.num 45), ("gustdirCardinal", Value.null)] by decide)
    unfold stateStep
    rw [if_neg (show ¬ (("gustdir", Value.num 45).2 = Value.null) by decide)]
    rcases hW : List.lookup "gustdir"
        (observeAll (fun _ => []) { table := KEY_CONFIG, seen := [] }
          [("gustdir", Value.num 45), ("gustdirCardinal", Value.null)]).seen
      with _ | cW
    · exfalso
      have hS : (List.lookup "gustdir"
          (observeAll (fun _ => []) { table := KEY_CONFIG, seen := [] }
            [("gustdir", Value.num 45), ("gustdirCardinal", Value.null)]).seen).isSome
          = true := by decide
      rw [hW] at hS
      exact Bool.noConfusion hS
    · dsimp only
      apply List.mem_cons_of_mem
      have he : applyConv Conv.toCardinal (Value.num 45) = Value.str "NE" := by
        rw [show applyConv Conv.toCardinal (Value.num 45) =
          Value.str (degreesToCardinal 45) from rfl, degreesToCardinal_45]
      rw [← he]
      apply derivedMsgs_mem
      · show ("gustdirCardinal",
          { source := some "gustdir", convLambda := some Conv.toCardinal,
            metadata := [("device_class", MetaValue.s "enum"),
              ("icon", MetaValue.s "mdi:compass-rose"),
              ("name", MetaValue.s "Wind Gust Direction Cardinal"),
              ("options", MetaValue.strList cardinalDirections),
              ("unit_of_measurement", MetaValue.null)] }) ∈ _
        decide
      · rfl
      · rfl

theorem discDoc_mem_publish (a : DiscArgs) (st2 : PubState)
    (n : String) (c : SensorConfig) (hnc : (n, c) ∈ st2.seen) :
    discDoc a n c ∈ (publishDiscovery a st2).2 :=
  List.mem_map.2 ⟨(n, c), hnc, rfl⟩

/-- C9 (amended): registry discovery registers a packet key purely by
its presence — a key occurring (even always with a null value) is
resolved and registered, and every registry entry is included in
discovery publication; the key's own null entries contribute nothing to
state publication (deleting such an entry leaves the output unchanged).
A state *message* on the key's topic can still arrive when the key is a
registered derived sensor whose source key occurs non-null; see the
counterexample. -/
theorem presence_based_registration
    (um : String → List (String × MetaValue)) (st : PubState)
    (packet : List (String × Value)) (k : String) (v : Value) (a : DiscArgs)
    (reg : Registry) (pfx : String) (cd : Nat) (p1 p2 : List (String × Value))
    (hmem : (k, v) ∈ packet) :
    k ∈ regKeys (observePacket um st packet).1.seen ∧
    (∀ n c, (n, c) ∈ (observePacket um st packet).1.seen →
      discDoc a n c ∈ (publishDiscovery a (observePacket um st packet).1).2) ∧
    processPacket reg pfx cd (p1 ++ (k, Value.null) :: p2) =
      processPacket reg pfx cd (p1 ++ p2) := by
  refine ⟨?_, ?_, processPacket_null_erase⟩
  · rw [observePacket_fst]
    exact observeAll_self hmem
  · intro n c hnc
    exact discDoc_mem_publish a ((observePacket um st packet).1) n c hnc

set_option maxRecDepth 1000000 in
set_option maxHeartbeats 4000000 in
theorem presence_based_registration_witness :
    "hail" ∈ regKeys (observePacket (fun _ => [])
      { table := KEY_CONFIG, seen := [] } [("hail", Value.null)]).1.seen := by
  have h := presence_based_registration (fun _ => [])
    { table := KEY_CONFIG, seen := [] } [("hail", Value.null)] "hail"
    Value.null
    { availabilityTopic := "a", discoveryTopicPre := "d",
      stateTopicPre := "s", nodeId := "n", device := [] }
    [] "s" 0 [] [] (by decide)
  exact h.1

/-- C10: no operation of the pipeline mutates the static metadata
tables.  `KEY_CONFIG` is the one table with a genuine write path (the
aliased `setdefault(...)["unit_of_measurement"] = None` in
`_discover_derived_sensors`, modelled by the threaded `table` field);
after any sequence of discovery calls, followed by a discovery publish,
the threaded table still equals the initial `KEY_CONFIG` — the write is
dead because every derived entry sets `unit_of_measurement` explicitly.
`ENUM_MAPS` and `UNIT_METADATA` have no write path at all (suffix and
guess resolution deep-copy, the unit-metadata merge builds a fresh
dict), so they are embedded as constants.  State publication takes the
registry by value and returns only output, mirroring its read-only
body. -/
theorem static_tables_not_mutated
    (um : String → List (String × MetaValue)) (a : DiscArgs)
    (packets : List (List (String × Value))) :
    ((packets.foldl (fun st p => (observePacket um st p).1)
        { table := KEY_CONFIG, seen := [] }).table = KEY_CONFIG) ∧
    ((publishDiscovery a (packets.foldl (fun st p => (observePacket um st p).1)
        { table := KEY_CONFIG, seen := [] })).1.table = KEY_CONFIG) := by
  have hmain : ∀ (ps : List (List (String × Value))) (st : PubState),
      st.table = KEY_CONFIG →
      (ps.foldl (fun st p => (observePacket um st p).1) st).table =
        KEY_CONFIG := by
    intro ps
    induction ps with
    | nil =>
      intro st h
      exact h
    | cons p t ih =>
      intro st h
      rw [List.foldl_cons]
      apply ih
      rw [observePacket_fst]
      exact observeAll_table h
  have h1 := hmain packets { table := KEY_CONFIG, seen := [] } rfl
  exact ⟨h1, h1⟩
